import Mathlib

/-!
# Verification of the setx-history research/media/presentation pipeline

A shallow embedding of the research workflow of the `setx-history` repository:
topic extraction (`research-workflow.js`), media search/download/persistence
(`media-agent.js`, the enhanced variant taking `existingTopicId`), page
rendering (`presentation-builder.js`) and page consolidation
(`page-consolidation-agent.js`).

Modelling conventions:
* SQLite tables become lists of rows inside a `Database` structure; `INSERT`
  appends, `UPDATE ... WHERE id` maps over the list.  Auto-increment ids are
  modelled as `max id + 1`.  Rows that the pipeline always writes with
  non-NULL values are modelled with plain `String` fields; columns that can be
  NULL for the queries under study (`event_year`, joined names, `image_url`,
  `source_name`) are `Option`s.
* Outbound HTTP (the Library of Congress search endpoints and media
  downloads) and the clock are an explicit environment of functions, keyed by
  the exact request URL, so that which URL a function queries is part of the
  data flow.
* JavaScript truthiness on strings/options (empty string and `null` are
  falsy, `0` is falsy for numbers) is modelled explicitly by the `jsTruthy*`
  helpers; `a || b` on strings is `jsOr`.
* The JS regexes of the extractor and consolidator are implemented directly
  (leftmost match, alternatives in source order, lazy `(.*?)` groups, `.` not
  matching newlines unless the `s` flag is present).
-/

namespace SetxHistory

/-! ## Generic string helpers (JavaScript semantics) -/

/-- `String.prototype.toLowerCase`, character by character. -/
def lowerStr (s : String) : String := ⟨s.data.map Char.toLower⟩

/-- JS truthiness of a nullable string: `null`/`undefined` and `""` are falsy. -/
def jsTruthyOptStr : Option String → Bool
  | none => false
  | some s => !(s == "")

/-- JS `a || b` for a mandatory string `a`. -/
def jsOr (a b : String) : String := if a == "" then b else a

/-- JS `a || b` for a nullable string `a`. -/
def jsOrOpt (a : Option String) (b : String) : String :=
  match a with
  | none => b
  | some s => if s == "" then b else s

/-- JS `String.prototype.trim`. -/
def jsTrim (s : String) : String :=
  ⟨((s.data.dropWhile Char.isWhitespace).reverse.dropWhile Char.isWhitespace).reverse⟩

/-- Substring occurrence test: does `pat` occur contiguously inside `l`? -/
def containsSub (pat : List Char) : List Char → Bool
  | [] => pat.isEmpty
  | c :: cs => pat.isPrefixOf (c :: cs) || containsSub pat cs

/-- Substring test on strings (case-sensitive, like JS `String.prototype.includes`). -/
def strContains (s pat : String) : Bool := containsSub pat.data s.data

/-- `s.split(/\s+/)` from JS: runs of whitespace separate tokens; a leading or
trailing run contributes an empty token, and `""` splits to `[""]`.
`fuel` bounds the recursion; it is instantiated with the length of the input,
which every step decreases by at least one. -/
def jsSplitWsGo (fuel : Nat) (acc : List Char) (l : List Char) : List (List Char) :=
  match fuel, l with
  | _, [] => [acc.reverse]
  | 0, _ => [acc.reverse]
  | fuel + 1, c :: cs =>
    if c.isWhitespace then acc.reverse :: jsSplitWsGo fuel [] (cs.dropWhile Char.isWhitespace)
    else jsSplitWsGo fuel (c :: acc) cs

def jsSplitWs (l : List Char) : List (List Char) := jsSplitWsGo l.length [] l

/-! ## Topic Extractor (`ResearchWorkflow.extractTopic`, `extractKeywords`) -/

/-- The alternatives of the fixed-subject pattern
`/(spindletop|beaumont|port arthur|orange|lumber|oil|shipbuilding|cajun)/i`,
in source order. -/
def subjectList : List String :=
  ["spindletop", "beaumont", "port arthur", "orange", "lumber", "oil", "shipbuilding", "cajun"]

/-- Leftmost case-insensitive occurrence of a fixed subject.  `lower` is the
lowercased message, `orig` the original; both are walked in lockstep and the
capture is the matched slice of the original (JS `match` preserves case).
At a given position the alternatives are tried in source order. -/
def findSubjectAux (lower orig : List Char) : Option (List Char) :=
  match subjectList.find? (fun s => s.data.isPrefixOf lower) with
  | some s => some (orig.take s.data.length)
  | none =>
    match lower, orig with
    | _ :: ls, _ :: os => findSubjectAux ls os
    | _, _ => none

/-- The lazy tail `(.*?)(\?|$)` of the question templates: at each point first
try to close the match with `?` (or the end of input), otherwise let `.`
consume one character — `.` does not match a newline (no `s` flag).  Returns
`(capture, capture ++ terminator)` on success. -/
def lazyCapture : List Char → Option (List Char × List Char)
  | [] => some ([], [])
  | c :: cs =>
    if c = '?' then some ([], ['?'])
    else if c = '\n' ∨ c = '\r' then none
    else
      match lazyCapture cs with
      | some (cap, whole) => some (c :: cap, c :: whole)
      | none => none

/-- Leftmost match of `/<prefix alternatives>(.*?)(\?|$)/i` where the
alternatives are literal strings (lowercase), tried in source order at each
position.  Returns `(match0, match1)`: the whole match and the capture, both
from the original-case message. -/
def questionMatchAux (prefixes : List String) (lower orig : List Char) :
    Option (List Char × List Char) :=
  match prefixes.find? (fun p => p.data.isPrefixOf lower) with
  | some p =>
    match lazyCapture (orig.drop p.data.length) with
    | some (cap, whole) => some ((orig.take p.data.length) ++ whole, cap)
    | none =>
      match lower, orig with
      | _ :: ls, _ :: os => questionMatchAux prefixes ls os
      | _, _ => none
  | none =>
    match lower, orig with
    | _ :: ls, _ :: os => questionMatchAux prefixes ls os
    | _, _ => none

/-- The ordered pattern list of `extractTopic`; returns `(match0, match1)` of
the first pattern that matches (for the fixed-subject pattern the whole match
is the capture). -/
def tryPatterns (message : String) : Option (List Char × List Char) :=
  let orig := message.data
  let lower := orig.map Char.toLower
  match findSubjectAux lower orig with
  | some cap => some (cap, cap)
  | none =>
    match questionMatchAux ["tell me about "] lower orig with
    | some r => some r
    | none =>
      match questionMatchAux ["what is ", "what was ", "what were "] lower orig with
      | some r => some r
      | none => questionMatchAux ["how did "] lower orig

/-- `ResearchWorkflow.extractTopic`: first matching pattern wins and
`match[1] ? match[1].trim() : match[0].trim()` is returned (an empty capture
is falsy, so the whole match is returned in that case); `null` when no
pattern matches. -/
def extractTopic (message : String) : Option String :=
  match tryPatterns message with
  | some (m0, m1) => some (if m1.isEmpty then jsTrim ⟨m0⟩ else jsTrim ⟨m1⟩)
  | none => none

/-- The stop-word list of `extractKeywords`. -/
def commonWords : List String :=
  ["tell", "me", "about", "what", "is", "was", "were", "how", "did", "the", "a", "an"]

/-- `word.replace(/[?!.,]/, '')` — only the first occurrence is removed. -/
def stripOnePunct : List Char → List Char
  | [] => []
  | c :: cs => if c = '?' ∨ c = '!' ∨ c = '.' ∨ c = ',' then cs else c :: stripOnePunct cs

/-- The filter of the keyword loop: `word.length > 3 && !commonWords.includes(word)`. -/
def keywordCond (w : List Char) : Bool :=
  decide (w.length > 3) && !(commonWords.contains (⟨w⟩ : String))

/-- `ResearchWorkflow.extractKeywords`: lowercase, split on whitespace, push the
punctuation-stripped word whenever the filter holds, keep the first five. -/
def extractKeywords (message : String) : List String :=
  let words := jsSplitWs (lowerStr message).data
  let keywords :=
    words.foldl (fun acc w => if keywordCond w then acc ++ [(⟨stripOnePunct w⟩ : String)] else acc) []
  keywords.take 5

/-- The keyword extraction as the specification words it (for comparison with
`extractKeywords`): lowercase, split on whitespace, discard stop-words and
tokens of length ≤ 3, return the first five surviving tokens unchanged. -/
def claimedKeywords (message : String) : List String :=
  (((jsSplitWs (lowerStr message).data).filter keywordCond).map
    (fun w => (⟨w⟩ : String))).take 5

/-! ## Media Agent (`media-agent.js`, enhanced variant) -/

/-- `encodeURIComponent`: percent-encode every UTF-8 byte outside the
unreserved set `A-Z a-z 0-9 - _ . ! ~ * ' ( )`, uppercase hex. -/
def isUnreservedByte (b : UInt8) : Bool :=
  (0x41 ≤ b && b ≤ 0x5A) || (0x61 ≤ b && b ≤ 0x7A) || (0x30 ≤ b && b ≤ 0x39) ||
  b == 0x2D || b == 0x5F || b == 0x2E || b == 0x21 || b == 0x7E || b == 0x2A ||
  b == 0x27 || b == 0x28 || b == 0x29

def hexDigitUpper (n : Nat) : Char :=
  if n < 10 then Char.ofNat (48 + n) else Char.ofNat (55 + n)

def encByte (b : UInt8) : String :=
  if isUnreservedByte b then ⟨[Char.ofNat b.toNat]⟩
  else ⟨['%', hexDigitUpper (b.toNat / 16), hexDigitUpper (b.toNat % 16)]⟩

def encodeURIComponent (s : String) : String :=
  String.join ((s.toUTF8.toList).map encByte)

/-- The three search URLs of `searchLibraryOfCongress`. -/
def imageSearchUrl (query : String) : String :=
  "https://www.loc.gov/pictures/search/?q=" ++ encodeURIComponent query ++ "&fo=json"

def audioSearchUrl (query : String) : String :=
  "https://www.loc.gov/audio/?q=" ++ encodeURIComponent query ++ "&fo=json"

def videoSearchUrl (query : String) : String :=
  "https://www.loc.gov/film/?q=" ++ encodeURIComponent query ++ "&fo=json"

/-- The three media kinds; `mediaKindName` gives the JS `type` tag strings. -/
inductive MediaKind
  | imageKind
  | audioKind
  | videoKind
deriving DecidableEq, Repr

def mediaKindName : MediaKind → String
  | .imageKind => "image"
  | .audioKind => "audio"
  | .videoKind => "video"

/-- An entry of a search item's `resources[]` list. -/
structure LocResource where
  url : Option String
  mimeType : Option String
deriving DecidableEq, Repr

/-- The `image` object of an image search item. -/
structure LocImage where
  full : Option String
deriving DecidableEq, Repr

/-- An item of the image endpoint's `results` array. -/
structure LocImageItem where
  title : Option String
  image : Option LocImage
  reproductionNumber : Option String
deriving DecidableEq, Repr

/-- An item of the audio/film endpoints' `results` arrays. -/
structure LocAVItem where
  title : Option String
  resources : Option (List LocResource)
  reproductionNumber : Option String
deriving DecidableEq, Repr

/-- A media item accepted by `searchLibraryOfCongress`. -/
structure MediaItem where
  title : String
  url : String
  source : String
  kind : MediaKind
  reproductionNumber : Option String
deriving DecidableEq, Repr

/-- Outcome of an `axios.get(..., responseType 'arraybuffer')` download:
a 200 response with a body, a non-200/unreachable response, or a timeout. -/
inductive DownloadOutcome
  | ok (data : List UInt8)
  | httpError
  | timedOut
deriving DecidableEq, Repr

/-- The outside world of the media agent: each search endpoint is a function
from the request URL to `data.results` (with `none` covering both a request
failure and a missing `results` field — the code treats them alike), each
download is a function of the URL, and `Date.now()` is a function of how many
times it has been called. -/
structure LocEnv where
  imageEndpoint : String → Option (List LocImageItem)
  audioEndpoint : String → Option (List LocAVItem)
  videoEndpoint : String → Option (List LocAVItem)
  download : String → DownloadOutcome
  now : Nat → Nat

/-- The audio/video file-extension regexes `/\.(...)$/i` as suffix sets. -/
def audioExts : List String := [".mp3", ".wav", ".aiff", ".flac", ".aac", ".m4a", ".ogg"]

def videoExts : List String := [".mp4", ".mov", ".avi", ".wmv", ".flv", ".mkv", ".m4v"]

def endsWithOneOf (url : String) (exts : List String) : Bool :=
  exts.any (fun e => e.data.isSuffixOf (lowerStr url).data)

/-- The `mime_type.includes(...)` alternatives for audio and video. -/
def audioMimeSubs : List String := ["audio", "mp3", "wav", "aiff", "flac"]

def videoMimeSubs : List String := ["video", "mp4", "mov", "avi", "wmv", "flv"]

def mimeMatches (mt : Option String) (subs : List String) : Bool :=
  match mt with
  | none => false
  | some m => if m == "" then false else subs.any (fun x => containsSub x.data m.data)

/-- The resource predicate of `item.resources.find(r => ...)`: requires a
truthy `url`, then a matching `mime_type` or a matching URL extension. -/
def isAVResource (exts subs : List String) (r : LocResource) : Bool :=
  match r.url with
  | none => false
  | some u =>
    if u == "" then false
    else mimeMatches r.mimeType subs || endsWithOneOf u exts

/-- Accepting one audio/video item: prefer the first matching resource; fall
back to the first resource when it exists, has a truthy URL and the URL
extension matches; otherwise the item yields nothing. -/
def avAccept (kind : MediaKind) (exts subs : List String) (sourceLabel query : String)
    (item : LocAVItem) : Option MediaItem :=
  match item.resources with
  | none => none
  | some rs =>
    match rs.find? (isAVResource exts subs) with
    | some r =>
      some { title := jsOrOpt item.title query, url := r.url.getD "", source := sourceLabel,
             kind := kind, reproductionNumber := item.reproductionNumber }
    | none =>
      match rs with
      | [] => none
      | r0 :: _ =>
        match r0.url with
        | none => none
        | some u =>
          if u == "" then none
          else if endsWithOneOf u exts then
            some { title := jsOrOpt item.title query, url := u, source := sourceLabel,
                   kind := kind, reproductionNumber := item.reproductionNumber }
          else none

/-- The image-endpoint half of the search: take the first `maxResults` result
items and keep those with a truthy `image.full`. -/
def acceptedImages (resp : Option (List LocImageItem)) (query : String) (maxResults : Nat) :
    List MediaItem :=
  match resp with
  | none => []
  | some results =>
    (results.take maxResults).filterMap (fun item =>
      match item.image with
      | none => none
      | some img =>
        match img.full with
        | none => none
        | some full =>
          if full == "" then none
          else some { title := jsOrOpt item.title query, url := full,
                      source := "Library of Congress - Images", kind := .imageKind,
                      reproductionNumber := item.reproductionNumber })

/-- The audio/video-endpoint halves: take the first `cap` result items and
accept via `avAccept`. -/
def acceptedAV (kind : MediaKind) (exts subs : List String) (sourceLabel : String)
    (resp : Option (List LocAVItem)) (query : String) (cap : Nat) : List MediaItem :=
  match resp with
  | none => []
  | some results => (results.take cap).filterMap (avAccept kind exts subs sourceLabel query)

/-- `MediaAgent.searchLibraryOfCongress(query, maxResults)` (source default
`maxResults = 10`): query the three endpoints, cap images at `maxResults` and
audio/video at `⌊maxResults/2⌋` each, append in image/audio/video order and
truncate the combined list to `maxResults`. -/
def searchLibraryOfCongress (env : LocEnv) (query : String) (maxResults : Nat) :
    List MediaItem :=
  let imgs := acceptedImages (env.imageEndpoint (imageSearchUrl query)) query maxResults
  let auds := acceptedAV .audioKind audioExts audioMimeSubs "Library of Congress - Audio"
    (env.audioEndpoint (audioSearchUrl query)) query (maxResults / 2)
  let vids := acceptedAV .videoKind videoExts videoMimeSubs "Library of Congress - Video"
    (env.videoEndpoint (videoSearchUrl query)) query (maxResults / 2)
  ((imgs ++ auds) ++ vids).take maxResults

/-- `filename.replace(/\.[^/.]+$/, "")`: strip a final `.ext` segment that
contains no `/` or further `.`. -/
def jsStripExtension (filename : List Char) : List Char :=
  let rev := filename.reverse
  let seg := rev.takeWhile (fun c => ¬(c = '.' ∨ c = '/'))
  let rest := rev.drop seg.length
  match rest with
  | '.' :: more => if seg.isEmpty then filename else more.reverse
  | _ => filename

/-- The per-kind download extensions of `downloadMedia`. -/
def extFor : MediaKind → String
  | .imageKind => ".jpg"
  | .audioKind => ".mp3"
  | .videoKind => ".mp4"

/-- `if (!filename.endsWith(extension)) filename = filename.replace(...) + extension`. -/
def fixExtension (filename ext : String) : String :=
  if ext.data.isSuffixOf filename.data then filename
  else (⟨jsStripExtension filename.data⟩ : String) ++ ext

def imageDirPath : String := "public/images/historical"

/-- `MediaAgent.downloadMedia(url, filename, mediaType)`: `null` when the URL
or filename is falsy, on a non-200 status, on a timeout or on an empty body;
otherwise the file is written and its path returned. -/
def downloadMedia (env : LocEnv) (url filename : String) (kind : MediaKind) : Option String :=
  if url == "" || filename == "" then none
  else
    let filename := fixExtension filename (extFor kind)
    match env.download url with
    | .ok data => if data.isEmpty then none else some (imageDirPath ++ "/" ++ filename)
    | .httpError => none
    | .timedOut => none

/-- `topic.toLowerCase().replace(/\s+/g, '-')` — whitespace runs to one dash. -/
def wsToDashGo (fuel : Nat) (l : List Char) : List Char :=
  match fuel, l with
  | _, [] => []
  | 0, l => l
  | fuel + 1, c :: cs =>
    if c.isWhitespace then '-' :: wsToDashGo fuel (cs.dropWhile Char.isWhitespace)
    else c :: wsToDashGo fuel cs

def slugWs (s : String) : String := ⟨wsToDashGo s.data.length s.data⟩

/-- `title.toLowerCase().replace(/[^a-z0-9]+/g, '-').substring(0, 30)`. -/
def isLowerAlnum (c : Char) : Bool :=
  ('a' ≤ c && c ≤ 'z') || ('0' ≤ c && c ≤ '9')

def nonAlnumToDashGo (fuel : Nat) (l : List Char) : List Char :=
  match fuel, l with
  | _, [] => []
  | 0, l => l
  | fuel + 1, c :: cs =>
    if isLowerAlnum c then c :: nonAlnumToDashGo fuel cs
    else '-' :: nonAlnumToDashGo fuel (cs.dropWhile (fun d => !isLowerAlnum d))

def cleanTitleOf (title : String) : String :=
  ⟨(nonAlnumToDashGo (lowerStr title).data.length (lowerStr title).data).take 30⟩

/-- The file extension appended to the stored `filepath` in
`collectMediaForTopic` (`'mp3' : 'mp4' : 'jpg'` ternary). -/
def storedExtName : MediaKind → String
  | .audioKind => "mp3"
  | .videoKind => "mp4"
  | .imageKind => "jpg"

/-- A member of the list returned by `collectMediaForTopic`. -/
structure CollectedMedia where
  filepath : String
  title : String
  source : String
  kind : MediaKind
  topic : String
  reproductionNumber : Option String
deriving DecidableEq, Repr

/-- The search query built by `collectMediaForTopic`:
`[topic, ...keywords, 'Texas history'].join(' ')`. -/
def searchQueryFor (topic : String) (keywords : List String) : String :=
  String.intercalate " " (topic :: (keywords ++ ["Texas history"]))

/-- The download loop of `collectMediaForTopic`; `idx` counts the
`Date.now()` calls. -/
def collectGo (env : LocEnv) (topic : String) : Nat → List MediaItem → List CollectedMedia
  | _, [] => []
  | idx, m :: rest =>
    let cleanTitle := cleanTitleOf m.title
    let timestamp := env.now idx
    let filename := slugWs (lowerStr topic) ++ "-" ++ cleanTitle ++ "-" ++ toString timestamp
    match downloadMedia env m.url filename m.kind with
    | some _ =>
      { filepath := "/images/historical/" ++ filename ++ "." ++ storedExtName m.kind,
        title := m.title, source := m.source, kind := m.kind, topic := topic,
        reproductionNumber := m.reproductionNumber } :: collectGo env topic (idx + 1) rest
    | none => collectGo env topic (idx + 1) rest

/-- `MediaAgent.collectMediaForTopic(topic, keywords)`: search all media types
with the joined query (default cap 10), then download each accepted item,
skipping failures. -/
def collectMediaForTopic (env : LocEnv) (topic : String) (keywords : List String) :
    List CollectedMedia :=
  collectGo env topic 0 (searchLibraryOfCongress env (searchQueryFor topic keywords) 10)

/-! ## The database (`database.sqlite` tables used by the pipeline) -/

/-- A `topics_researched` row. -/
structure TopicRow where
  id : Nat
  topic : String
  keywords : String
  userId : String
  presentationGenerated : Bool
deriving DecidableEq, Repr

/-- A `topic_media` row (the columns the pipeline writes). -/
structure MediaRow where
  topicId : Nat
  mediaPath : String
  title : String
  source : String
deriving DecidableEq, Repr

/-- A `presentations` row. -/
structure PresentationRow where
  topicId : Nat
  title : String
  content : String
  htmlPath : String
  createdAt : Nat
deriving DecidableEq, Repr

/-- A `historical_topics` lookup row (the columns the pipeline reads). -/
structure HistoricalTopicRow where
  id : Nat
  name : String
deriving DecidableEq, Repr

/-- A `historical_cities` lookup row (the columns the pipeline reads). -/
structure HistoricalCityRow where
  id : Nat
  name : String
deriving DecidableEq, Repr

/-- A `historical_facts` row (the columns the pipeline reads); `importance`
has a non-NULL default, `event_year` and the link/attribution columns are
nullable. -/
structure HistoricalFactRow where
  id : Nat
  title : String
  content : String
  eventYear : Option Int
  cityId : Option Nat
  topicId : Option Nat
  sourceName : Option String
  importance : Int
  imageUrl : Option String
deriving DecidableEq, Repr

/-- A `consolidated_pages` row. -/
structure ConsolidatedPageRow where
  mainTopic : String
  displayName : Option String
  htmlPath : String
deriving DecidableEq, Repr

/-- The database file: every table is a list of rows in insertion (rowid)
order. -/
structure Database where
  topicsResearched : List TopicRow
  topicMedia : List MediaRow
  presentations : List PresentationRow
  historicalTopics : List HistoricalTopicRow
  historicalCities : List HistoricalCityRow
  historicalFacts : List HistoricalFactRow
  consolidatedPages : List ConsolidatedPageRow
deriving DecidableEq, Repr

/-- The AUTOINCREMENT id handed to the next `topics_researched` insert. -/
def nextTopicId (db : Database) : Nat :=
  (db.topicsResearched.foldl (fun m r => max m r.id) 0) + 1

/-- Minimal `JSON.stringify` for a string array (quotes and backslashes
escaped), as used for the `keywords` column. -/
def jsonEscape (s : String) : String :=
  ⟨s.data.flatMap (fun c => if c = '"' ∨ c = '\\' then ['\\', c] else [c])⟩

def jsonStringifyStrings (xs : List String) : String :=
  "[" ++ String.intercalate "," (xs.map (fun s => "\"" ++ jsonEscape s ++ "\"")) ++ "]"

/-- `MediaAgent.storeResearchedTopic`: insert a `topics_researched` row and
resolve with its id. -/
def storeResearchedTopic (db : Database) (topic : String) (keywords : List String)
    (userId : String) : Nat × Database :=
  let id := nextTopicId db
  (id, { db with topicsResearched := db.topicsResearched ++
      [{ id := id, topic := topic, keywords := jsonStringifyStrings keywords,
         userId := userId, presentationGenerated := false }] })

/-- `MediaAgent.linkMediaToTopic`: insert a `topic_media` row. -/
def linkMediaToTopic (db : Database) (topicId : Nat) (mediaPath title source : String) :
    Database :=
  { db with topicMedia := db.topicMedia ++
      [{ topicId := topicId, mediaPath := mediaPath, title := title, source := source }] }

/-- The value returned by `researchAndCollect`. -/
structure ResearchResult where
  topicId : Nat
  topic : String
  mediaCount : Nat
  media : List CollectedMedia
  factsAdded : Nat
deriving DecidableEq, Repr

/-- JS falsiness of the `existingTopicId` parameter: `null`/`undefined` and
`0` are falsy, so `if (!existingTopicId)` creates a fresh topic for both. -/
def jsFalsyId : Option Nat → Bool
  | none => true
  | some n => n == 0

/-- `MediaAgent.researchAndCollect(topic, keywords, existingTopicId)`: store a
new `topics_researched` row unless a truthy `existingTopicId` is supplied,
collect media, and link every collected item to the topic id. -/
def researchAndCollect (env : LocEnv) (db : Database) (topic : String)
    (keywords : List String) (existingTopicId : Option Nat) : ResearchResult × Database :=
  let idDb :=
    if jsFalsyId existingTopicId then storeResearchedTopic db topic keywords "default"
    else (existingTopicId.getD 0, db)
  let topicId := idDb.1
  let media := collectMediaForTopic env topic keywords
  let db2 := media.foldl
    (fun d item => linkMediaToTopic d topicId item.filepath item.title item.source) idDb.2
  ({ topicId := topicId, topic := topic, mediaCount := media.length, media := media,
     factsAdded := media.length }, db2)

/-! ## Presentation Builder (`presentation-builder.js`) -/

/-- `LOWER(a) LIKE LOWER('%pat%')`: case-insensitive substring containment
(SQL wildcard characters inside the pattern are out of the modelled scope). -/
def likeContains (field pat : String) : Bool :=
  containsSub (lowerStr pat).data (lowerStr field).data

/-- Case-insensitive comparison of a literal lowercase word against the head
of the text. -/
def ciPrefixAt (pat l : List Char) : Bool :=
  ((l.take pat.length).map Char.toLower) == pat

/-- One attempt of `/\s+w1\s+w2.../i` at the current position: each word is
preceded by one-or-more whitespace; returns the remainder on success. -/
def matchSeqTail : List String → List Char → Option (List Char)
  | [], l => some l
  | w :: ws, l =>
    match l with
    | [] => none
    | c :: _ =>
      if c.isWhitespace then
        let r := l.dropWhile Char.isWhitespace
        if ciPrefixAt w.data r then matchSeqTail ws (r.drop w.data.length) else none
      else none

/-- Global replace of the word-sequence pattern by the empty string
(non-overlapping, left to right).  `fuel` is the input length; every step
consumes at least one character. -/
def removeSeqGo (words : List String) (fuel : Nat) (l : List Char) : List Char :=
  match fuel, l with
  | _, [] => []
  | 0, l => l
  | fuel + 1, c :: cs =>
    match matchSeqTail words (c :: cs) with
    | some rest => removeSeqGo words fuel rest
    | none => c :: removeSeqGo words fuel cs

def removeSeqAll (words : List String) (l : List Char) : List Char :=
  removeSeqGo words l.length l

/-- The topic cleanup of `getRelatedFacts`: strip
`/\s+in\s+southeast\s+texas\s+history/gi`, then `/\s+in\s+texas\s+history/gi`,
then trim. -/
def cleanTopicOf (topic : String) : String :=
  jsTrim ⟨removeSeqAll ["in", "texas", "history"]
    (removeSeqAll ["in", "southeast", "texas", "history"] topic.data)⟩

/-- A row of the facts query: `hf.*` plus the LEFT-JOINed `city_name` and
`topic_name`. -/
structure FactView where
  fact : HistoricalFactRow
  cityName : Option String
  topicName : Option String
deriving DecidableEq, Repr

/-- The LEFT JOINs of the facts query. -/
def factViews (db : Database) : List FactView :=
  db.historicalFacts.map (fun f =>
    { fact := f,
      cityName := (f.cityId.bind (fun cid =>
        db.historicalCities.find? (fun c => c.id == cid))).map (fun c => c.name),
      topicName := (f.topicId.bind (fun tid =>
        db.historicalTopics.find? (fun t => t.id == tid))).map (fun t => t.name) })

/-- `ORDER BY event_year DESC` comparison on a nullable column: SQLite sorts
NULL below every value, so NULL rows come last in descending order. -/
def yearGeB : Option Int → Option Int → Bool
  | some a, some b => decide (b ≤ a)
  | some _, none => true
  | none, none => true
  | none, some _ => false

/-- `ORDER BY hf.importance DESC, hf.event_year DESC` as a "comes not after"
relation between rows. -/
def factGeB (a b : FactView) : Bool :=
  decide (b.fact.importance < a.fact.importance) ||
  (a.fact.importance == b.fact.importance && yearGeB a.fact.eventYear b.fact.eventYear)

def factGe (a b : FactView) : Prop := factGeB a b = true

instance factGeDecidable : DecidableRel factGe := fun a b =>
  instDecidableEqBool (factGeB a b) true

instance factGeTotal : IsTotal FactView factGe := by
  constructor
  intro a b
  have hyt : ∀ x y : Option Int, yearGeB x y = true ∨ yearGeB y x = true := by
    intro x y
    rcases x with _ | xa <;> rcases y with _ | ya <;> simp [yearGeB] <;> omega
  unfold factGe factGeB
  rcases lt_trichotomy a.fact.importance b.fact.importance with h | h | h
  · right; simp [h]
  · rcases hyt a.fact.eventYear b.fact.eventYear with hy | hy
    · left; simp [h, hy]
    · right; simp [h.symm, hy]
  · left; simp [h]

instance factGeTrans : IsTrans FactView factGe := by
  constructor
  intro a b c hab hbc
  have hyt : ∀ x y z : Option Int, yearGeB x y = true → yearGeB y z = true →
      yearGeB x z = true := by
    intro x y z
    rcases x with _ | xa <;> rcases y with _ | ya <;> rcases z with _ | za <;>
      simp_all [yearGeB] <;> omega
  unfold factGe factGeB at hab hbc ⊢
  simp only [Bool.or_eq_true, Bool.and_eq_true, decide_eq_true_eq, beq_iff_eq] at hab hbc ⊢
  rcases hab with h1 | ⟨h2, h3⟩ <;> rcases hbc with h4 | ⟨h5, h6⟩
  · left; omega
  · left; omega
  · left; omega
  · right; exact ⟨by omega, hyt _ _ _ h3 h6⟩

/-- `PresentationBuilder.getRelatedFacts(topic)`: clean the topic string, try
an exact case-insensitive `historical_topics.name` match and filter by its
foreign key; otherwise filter by case-insensitive substring match against the
joined topic name, the fact title and the fact content.  Either way, order by
importance then event year (both descending) and keep at most 10 rows. -/
def getRelatedFacts (db : Database) (topic : String) : List FactView :=
  let cleanTopic := cleanTopicOf topic
  let views := factViews db
  match db.historicalTopics.find? (fun t => lowerStr t.name == lowerStr cleanTopic) with
  | some ht =>
    ((views.filter (fun v => v.fact.topicId == some ht.id)).insertionSort factGe).take 10
  | none =>
    ((views.filter (fun v =>
        (match v.topicName with
         | some n => likeContains n cleanTopic
         | none => false) ||
        likeContains v.fact.title cleanTopic ||
        likeContains v.fact.content cleanTopic)).insertionSort factGe).take 10

/-- An entry of the combined gallery list (`topic_media` rows and fact
images share this shape). -/
structure GalleryItem where
  mediaPath : String
  title : String
  source : String
deriving DecidableEq, Repr

def pbChunk1 : String := "\n<!DOCTYPE html>\n<html lang=\"en\">\n<head>\n    <meta charset=\"UTF-8\">\n    <meta name=\"viewport\" content=\"width=device-width, initial-scale=1.0\">\n    <title>"

def pbChunk2 : String := " - Southeast Texas History</title>\n    <style>\n        * \x7b margin: 0; padding: 0; box-sizing: border-box; \x7d\n        body \x7b\n            font-family: -apple-system, BlinkMacSystemFont, \x27Segoe UI\x27, Roboto, sans-serif;\n            background: linear-gradient(135deg, \x231e3c72 0%, \x232a5298 100%);\n            color: \x23333;\n            padding: 2rem;\n            min-height: 100vh;\n        \x7d\n        \n        nav \x7b\n            background: rgba(255, 255, 255, 0.95);\n            padding: 1rem 2rem;\n            box-shadow: 0 2px 10px rgba(0,0,0,0.1);\n            margin-bottom: 2rem;\n        \x7d\n        \n        nav ul \x7b\n            list-style: none;\n            display: flex;\n            gap: 2rem;\n            align-items: center;\n        \x7d\n        \n        nav a \x7b\n            text-decoration: none;\n            color: \x232a5298;\n            font-weight: 600;\n            transition: color 0.3s;\n        \x7d\n        \n        nav a:hover \x7b\n            color: \x231e3c72;\n        \x7d\n        \n        nav .logo \x7b\n            font-size: 1.5rem;\n            font-weight: 800;\n            color: \x231e3c72;\n        \x7d\n        .presentation \x7b\n            max-width: 1200px;\n            margin: 0 auto;\n            background: white;\n            border-radius: 20px;\n            overflow: hidden;\n            box-shadow: 0 20px 60px rgba(0,0,0,0.3);\n        \x7d\n        .hero \x7b\n            background: linear-gradient(135deg, \x231e3c72 0%, \x232a5298 100%);\n            color: white;\n            padding: 4rem 3rem;\n            text-align: center;\n        \x7d\n        .hero h1 \x7b\n            font-size: 3rem;\n            margin-bottom: 1rem;\n        \x7d\n        .hero p \x7b\n            font-size: 1.2rem;\n            opacity: 0.9;\n        \x7d\n        .gallery \x7b\n            display: grid;\n            grid-template-columns: repeat(auto-fit, minmax(300px, 1fr));\n            gap: 0;\n        \x7d\n        .gallery img \x7b\n            width: 100%;\n            height: 300px;\n            object-fit: cover;\n            transition: transform 0.3s;\n        \x7d\n        .gallery img:hover \x7b\n            transform: scale(1.05);\n            z-index: 10;\n        \x7d\n        .content \x7b\n            padding: 3rem;\n        \x7d\n        .fact \x7b\n            background: \x23f8f9fa;\n            padding: 2rem;\n            margin: 2rem 0;\n            border-radius: 12px;\n            border-left: 4px solid \x232a5298;\n        \x7d\n        .fact h3 \x7b\n            color: \x231e3c72;\n            margin-bottom: 1rem;\n        \x7d\n        .fact-meta \x7b\n            color: \x23666;\n            font-size: 0.9rem;\n            margin-top: 1rem;\n        \x7d\n        .notes-section \x7b\n            margin-top: 3rem;\n            padding-top: 2rem;\n            border-top: 1px solid \x23eee;\n        \x7d\n        .notes-section h2 \x7b\n            color: \x231e3c72;\n            margin-bottom: 1rem;\n        \x7d\n        .notes-section p \x7b\n            margin-bottom: 1.5rem;\n            color: \x23666;\n        \x7d\n        \x23personal-notes \x7b\n            width: 100%;\n            min-height: 200px;\n            padding: 1rem;\n            border-radius: 8px;\n            border: 1px solid \x23ddd;\n            font-family: inherit;\n            font-size: 1rem;\n            line-height: 1.6;\n        \x7d\n        \x23save-notes \x7b\n            display: inline-block;\n            margin-top: 1rem;\n            padding: 0.75rem 1.5rem;\n            background: \x232a5298;\n            color: white;\n            border: none;\n            border-radius: 8px;\n            cursor: pointer;\n            font-weight: 600;\n            transition: background 0.3s;\n        \x7d\n        \x23save-notes:hover \x7b\n            background: \x231e3c72;\n        \x7d\n        .timestamp \x7b\n            text-align: center;\n            padding: 2rem;\n            color: \x23999;\n            font-size: 0.9rem;\n        \x7d\n    </style>\n</head>\n<body>\n    <!-- Navigation -->\n    <nav>\n        <ul>\n            <li><span class=\"logo\">🏛️ SETX History</span></li>\n            <li><a href=\"/\">History Chat</a></li>\n            <li><a href=\"/contribute.html\">🤝 Contribute</a></li>\n        </ul>\n    </nav>\n    \n    <div class=\"presentation\">\n        <div class=\"hero\">\n            <h1>🏛️ "

def pbChunk3 : String := "</h1>\n            <p>A Visual Journey Through Southeast Texas History</p>\n        </div>\n\n        "

def pbChunk4 : String := "\n\n        <div class=\"content\">\n            <h2>Historical Facts</h2>\n            "

def pbChunk5 : String := "\n\n            <div class=\"notes-section\">\n                <h2>My Notes</h2>\n                <p>Add your personal notes and research findings below.</p>\n                <textarea id=\"personal-notes\" placeholder=\"Type your notes here...\"></textarea>\n                <button id=\"save-notes\">Save Notes</button>\n            </div>\n        </div>\n\n        <div class=\"timestamp\">\n            Generated: "

def pbChunk6 : String := "\n        </div>\n    </div>\n</body>\n</html>\n        "

def pbGalleryOpen : String := "\n        <div class=\"gallery\">\n            "

def pbGalleryClose : String := "\n        </div>\n        "

def pbGalleryImg1 : String := "\n                <img src=\""

def pbGalleryImg2 : String := "\" alt=\""

def pbGalleryImg3 : String := "\" title=\""

def pbGalleryImg4 : String := "\" onerror=\"this.style.display=\x27none\x27\">\n            "

def pbFact1 : String := "\n                <div class=\"fact\">\n                    "

def pbFact2 : String := "\n                    <h3>"

def pbFact3 : String := " "

def pbFact4 : String := "</h3>\n                    <p>"

def pbFact5 : String := "</p>\n                    <div class=\"fact-meta\">\n                        "

def pbFact6 : String := "\n                        "

def pbFact7 : String := "\n                        "

def pbFact8 : String := "\n                    </div>\n                </div>\n            "

def pbFactImg1 : String := "<img src=\""

def pbFactImg2 : String := "\" alt=\""

def pbFactImg3 : String := "\" style=\"width: 100%; max-width: 600px; height: auto; border-radius: 8px; margin-bottom: 1rem;\" onerror=\"this.style.display=\x27none\x27\">"

def pbCityPre : String := "📍 "

def pbTopicPre : String := "• "

def pbSourcePre : String := "• Source: "

/-- One `<img>` of the gallery (`allMedia.map(m => ...)`). -/
def galleryImg (topicTopic : String) (m : GalleryItem) : String :=
  pbGalleryImg1 ++ m.mediaPath ++ pbGalleryImg2 ++ jsOr m.title topicTopic ++
  pbGalleryImg3 ++ jsOr m.source "" ++ pbGalleryImg4

/-- The gallery section: present only when `allMedia.length > 0`. -/
def galleryBlock (topicTopic : String) (allMedia : List GalleryItem) : String :=
  if 0 < allMedia.length then
    pbGalleryOpen ++ String.join (allMedia.map (galleryImg topicTopic)) ++ pbGalleryClose
  else ""

/-- The conditional inline image of one fact. -/
def factImgTag (f : FactView) : String :=
  pbFactImg1 ++ f.fact.imageUrl.getD "" ++ pbFactImg2 ++ f.fact.title ++ pbFactImg3

/-- `${f.event_year ? `(${f.event_year})` : ''}` — `0` is falsy. -/
def yearTag : Option Int → String
  | none => ""
  | some y => if y == 0 then "" else "(" ++ toString y ++ ")"

/-- One fact card (`facts.map(f => ...)`). -/
def factHtml (f : FactView) : String :=
  pbFact1 ++ (if jsTruthyOptStr f.fact.imageUrl then factImgTag f else "") ++
  pbFact2 ++ f.fact.title ++ pbFact3 ++ yearTag f.fact.eventYear ++
  pbFact4 ++ f.fact.content ++
  pbFact5 ++ (if jsTruthyOptStr f.cityName then pbCityPre ++ f.cityName.getD "" else "") ++
  pbFact6 ++ (if jsTruthyOptStr f.topicName then pbTopicPre ++ f.topicName.getD "" else "") ++
  pbFact7 ++
  (if jsTruthyOptStr f.fact.sourceName then pbSourcePre ++ f.fact.sourceName.getD "" else "") ++
  pbFact8

/-- The facts list of the content section. -/
def factsBlock (facts : List FactView) : String := String.join (facts.map factHtml)

/-- The full presentation document of `generatePresentation`, assembled from
the verbatim template chunks. -/
def presentationHtml (topicTopic : String) (allMedia : List GalleryItem)
    (facts : List FactView) (nowStr : String) : String :=
  pbChunk1 ++ topicTopic ++ pbChunk2 ++ topicTopic ++ pbChunk3 ++
  galleryBlock topicTopic allMedia ++ pbChunk4 ++ factsBlock facts ++ pbChunk5 ++
  nowStr ++ pbChunk6

/-- The value resolved by `generatePresentation`. -/
structure PresResult where
  filepath : String
  filename : String
  fullPath : String
deriving DecidableEq, Repr

def presentationsDirPath : String := "public/presentations"

/-- The file system: written files as `(path, content)` in write order. -/
abbrev FileSystem := List (String × String)

/-- `PresentationBuilder.storePresentation`: insert a `presentations` row and
then set the topic's `presentation_generated` flag. -/
def storePresentation (db : Database) (topicId : Nat) (title content htmlPath : String)
    (createdAt : Nat) : Database :=
  let db1 : Database := { db with presentations := db.presentations ++
      [{ topicId := topicId, title := title, content := content, htmlPath := htmlPath,
         createdAt := createdAt }] }
  { db1 with topicsResearched := db1.topicsResearched.map (fun t =>
      if t.id == topicId then { t with presentationGenerated := true } else t) }

/-- `PresentationBuilder.getTopicData`: the topic row by id and its linked
`topic_media` rows. -/
def getTopicData (db : Database) (topicId : Nat) : Option TopicRow × List MediaRow :=
  (db.topicsResearched.find? (fun t => t.id == topicId),
   db.topicMedia.filter (fun m => m.topicId == topicId))

/-- The fact images merged into the gallery: facts whose `image_url` is
truthy and not whitespace-only. -/
def factImages (facts : List FactView) : List GalleryItem :=
  (facts.filter (fun f =>
      jsTruthyOptStr f.fact.imageUrl && !(jsTrim (f.fact.imageUrl.getD "") == ""))).map
    (fun f => { mediaPath := f.fact.imageUrl.getD "", title := f.fact.title,
                source := jsOrOpt f.fact.sourceName "Historical Archive" })

/-- `PresentationBuilder.generatePresentation(topicId)`: throws when the topic
id has no row; otherwise renders the document, writes it to
`<slug>-<topicId>.html`, stores a `presentations` row and flips the
`presentation_generated` flag.  `nowStr` is `new Date().toLocaleString()` and
`nowTick` the row-creation instant. -/
def generatePresentation (db : Database) (fsys : FileSystem) (topicId : Nat)
    (nowStr : String) (nowTick : Nat) :
    Except String (PresResult × Database × FileSystem) :=
  match getTopicData db topicId with
  | (none, _) => .error ("Topic with ID " ++ toString topicId ++ " not found")
  | (some topic, media) =>
    let facts := getRelatedFacts db topic.topic
    let allMedia := media.map (fun m =>
        ({ mediaPath := m.mediaPath, title := m.title, source := m.source } : GalleryItem)) ++
      factImages facts
    let html := presentationHtml topic.topic allMedia facts nowStr
    let filename := slugWs (lowerStr topic.topic) ++ "-" ++ toString topicId ++ ".html"
    let filepath := presentationsDirPath ++ "/" ++ filename
    let fsys2 := fsys ++ [(filepath, html)]
    let db2 := storePresentation db topicId topic.topic html filepath nowTick
    .ok ({ filepath := "/presentations/" ++ filename, filename := filename,
           fullPath := filepath }, db2, fsys2)

/-! ## Workflow orchestrator (`ResearchWorkflow.processUserQuery`) -/

/-- The value returned by a successful `processUserQuery`. -/
structure WorkflowResult where
  topicId : Nat
  topic : String
  mediaCount : Nat
  presentationUrl : String
  presentationPath : String
deriving DecidableEq, Repr

/-- `ResearchWorkflow.processUserQuery(userMessage, existingTopicId)`: `null`
when no topic can be extracted; otherwise research-and-collect followed by
presentation generation (whose rejection propagates). -/
def processUserQuery (env : LocEnv) (db : Database) (fsys : FileSystem)
    (userMessage : String) (existingTopicId : Option Nat) (nowStr : String) (nowTick : Nat) :
    Except String (Option WorkflowResult × Database × FileSystem) :=
  match extractTopic userMessage with
  | none => .ok (none, db, fsys)
  | some topic =>
    let keywords := extractKeywords userMessage
    let rdb := researchAndCollect env db topic keywords existingTopicId
    match generatePresentation rdb.2 fsys rdb.1.topicId nowStr nowTick with
    | .error e => .error e
    | .ok (pres, db2, fsys2) =>
      .ok (some { topicId := rdb.1.topicId, topic := rdb.1.topic,
                  mediaCount := rdb.1.mediaCount, presentationUrl := pres.filepath,
                  presentationPath := pres.fullPath }, db2, fsys2)

/-! ## Page Consolidation Agent (`page-consolidation-agent.js`) -/

/-- A value of the hardcoded `getTopicHierarchies()` table. -/
structure TopicHierarchy where
  displayName : String
  icon : String
  description : String
  subtopics : List String
  relatedTopics : List String
deriving DecidableEq, Repr

/-- The fixed category table, verbatim from the source. -/
def getTopicHierarchies : List (String × TopicHierarchy) :=
  [("Oil & Energy",
    { displayName := "Oil & Energy in Southeast Texas", icon := "⚡",
      description := "The petroleum industry that transformed Southeast Texas from rural to industrial",
      subtopics := ["Spindletop", "Oil drilling methods", "Refineries", "Major oil companies"],
      relatedTopics := ["Port Arthur", "Beaumont"] }),
   ("Lumber Industry",
    { displayName := "Lumber Industry in Southeast Texas", icon := "🌲",
      description := "The sawmill and timber era that built the region from 1880-1930",
      subtopics := ["Sawmills", "Logging techniques", "Major lumber companies", "Forest management"],
      relatedTopics := ["Orange", "Vidor"] }),
   ("Shipbuilding",
    { displayName := "Shipbuilding in Southeast Texas", icon := "🚢",
      description := "Naval and commercial shipbuilding, especially during WWII",
      subtopics := ["WWII shipyards", "Construction techniques", "Major shipbuilding companies", "Types of vessels"],
      relatedTopics := ["Orange", "Port Arthur"] })]

def lookupHierarchy (mainTopic : String) : Option TopicHierarchy :=
  (getTopicHierarchies.find? (fun h => h.1 == mainTopic)).map (fun h => h.2)

/-- The result of `findRelatedPresentations`: when the category is unknown the
display fields are absent and the presentation list empty. -/
structure PresentationsData where
  mainTopic : String
  displayName : Option String
  icon : Option String
  description : Option String
  presentations : List (PresentationRow × TopicRow)
  subtopics : List String
deriving DecidableEq, Repr

/-- `ORDER BY p.created_at DESC`. -/
def presGe (a b : PresentationRow × TopicRow) : Prop := b.1.createdAt ≤ a.1.createdAt

instance presGeDecidable : DecidableRel presGe := fun a b =>
  Nat.decLe b.1.createdAt a.1.createdAt

instance presGeTotal : IsTotal (PresentationRow × TopicRow) presGe :=
  ⟨fun a b => Nat.le_total b.1.createdAt a.1.createdAt⟩

instance presGeTrans : IsTrans (PresentationRow × TopicRow) presGe :=
  ⟨fun _ _ _ h1 h2 => le_trans h2 h1⟩

/-- `PageConsolidationAgent.findRelatedPresentations(mainTopic)`: unknown
categories resolve to an empty list; otherwise JOIN `presentations` with
`topics_researched` and keep rows whose researched topic contains (case
insensitively) the category name, a related topic or a subtopic. -/
def findRelatedPresentations (db : Database) (mainTopic : String) : PresentationsData :=
  match lookupHierarchy mainTopic with
  | none =>
    { mainTopic := mainTopic, displayName := none, icon := none, description := none,
      presentations := [], subtopics := [] }
  | some h =>
    let topicPatterns := mainTopic :: (h.relatedTopics ++ h.subtopics)
    let joined := db.presentations.filterMap (fun p =>
      (db.topicsResearched.find? (fun t => t.id == p.topicId)).map (fun t => (p, t)))
    let matched := joined.filter (fun pt =>
      topicPatterns.any (fun pat => likeContains pt.2.topic pat))
    { mainTopic := mainTopic, displayName := some h.displayName, icon := some h.icon,
      description := some h.description, presentations := matched.insertionSort presGe,
      subtopics := h.subtopics }

/-- Lazy `(.*?)` up to a literal terminator; with `dotAll` the dot may cross
newlines (`/s` flag), with `ci` the terminator is matched case-insensitively. -/
def lazyUntilStop (stop : List Char) (dotAll ci : Bool) : List Char → Option (List Char)
  | [] => none
  | c :: cs =>
    if (if ci then ciPrefixAt stop (c :: cs) else stop.isPrefixOf (c :: cs)) then some []
    else if !dotAll && (c = '\n' ∨ c = '\r') then none
    else (lazyUntilStop stop dotAll ci cs).map (fun cap => c :: cap)

/-- Leftmost match of `/<literal>(.*?)<stop>/`; on a failed lazy part the scan
resumes at the next position. -/
def findLiteralLazy (openLit stop : List Char) (dotAll ci : Bool) : List Char → Option (List Char)
  | [] => none
  | c :: cs =>
    if (if ci then ciPrefixAt openLit (c :: cs) else openLit.isPrefixOf (c :: cs)) then
      match lazyUntilStop stop dotAll ci ((c :: cs).drop openLit.length) with
      | some cap => some cap
      | none => findLiteralLazy openLit stop dotAll ci cs
    else findLiteralLazy openLit stop dotAll ci cs

/-- `/<h1[^>]*>(.*?)<\/h1>/i`: case-insensitive `<h1`, any non-`>` attribute
characters, then a lazy single-line body up to `</h1>`. -/
def findH1 : List Char → Option (List Char)
  | [] => none
  | c :: cs =>
    if ciPrefixAt "<h1".data (c :: cs) then
      let rest := (c :: cs).drop 3
      let attrs := rest.takeWhile (fun d => ¬(d = '>'))
      match rest.drop attrs.length with
      | '>' :: body =>
        match lazyUntilStop "</h1>".data false true body with
        | some cap => some cap
        | none => findH1 cs
      | _ => findH1 cs
    else findH1 cs

/-- The four pattern extractions of `extractContentSections`. -/
structure ContentSections where
  title : String
  hero : String
  gallery : String
  content : String
deriving DecidableEq, Repr

def extractContentSections (htmlContent : String) : ContentSections :=
  let l := htmlContent.data
  { title := ((findH1 l).map (fun c => (⟨c⟩ : String))).getD "Untitled",
    hero := ((findLiteralLazy "<div class=\"hero\">".data "</div>".data true false l).map
      (fun c => (⟨c⟩ : String))).getD "",
    gallery := ((findLiteralLazy "<div class=\"gallery\">".data "</div>".data true false l).map
      (fun c => (⟨c⟩ : String))).getD "",
    content := ((findLiteralLazy "<div class=\"content\">".data
      "<div class=\"timestamp\">".data true false l).map (fun c => (⟨c⟩ : String))).getD "" }

/-- `content.title.replace(/^[^a-z0-9]+/gi, '').substring(0, 30)`. -/
def isAlnumCI (c : Char) : Bool :=
  ('a' ≤ c && c ≤ 'z') || ('A' ≤ c && c ≤ 'Z') || ('0' ≤ c && c ≤ '9')

def tabLabel (title : String) : String :=
  ⟨(title.data.dropWhile (fun c => !isAlnumCI c)).take 30⟩

/-- JS interpolation of a possibly-`undefined` value. -/
def optShow (o : Option String) : String := o.getD "undefined"

structure TabData where
  id : String
  label : String
  content : String
deriving DecidableEq, Repr

def caTabContent1 : String := "\n                    <div class=\"tab-content\">\n                        "

def caTabContent2 : String := "\n                        "

def caTabContent3 : String := "\n                        <div class=\"facts-section\">"

def caTabContent4 : String := "</div>\n                    </div>\n                "

def caNavOpen : String := "\n            <div class=\"tab-navigation\">\n                "

def caNavClose : String := "\n            </div>\n        "

def caButton1 : String := "\n                    <button class=\"tab-button "

def caButton2 : String := "\" \n                            data-tab=\""

def caButton3 : String := "\">\n                        "

def caButton4 : String := "\n                    </button>\n                "

def caPanesOpen : String := "\n            <div class=\"tab-contents\">\n                "

def caPanesClose : String := "\n            </div>\n        "

def caPane1 : String := "\n                    <div id=\""

def caPane2 : String := "\" class=\"tab-pane "

def caPane3 : String := "\">\n                        "

def caPane4 : String := "\n                    </div>\n                "

def caAsm1 : String := "\n                <div class=\"consolidated-page\">\n                    <div class=\"page-header\">\n                        <h1>"

def caAsm2 : String := " "

def caAsm3 : String := "</h1>\n                        <p>"

def caAsm4 : String := "</p>\n                    </div>\n                    \n                    "

def caAsm5 : String := "\n                    "

def caAsm6 : String := "\n                </div>\n            "

def cpChunk1 : String := "\n<!DOCTYPE html>\n<html lang=\"en\">\n<head>\n    <meta charset=\"UTF-8\">\n    <meta name=\"viewport\" content=\"width=device-width, initial-scale=1.0\">\n    <title>"

def cpChunk2 : String := " - Southeast Texas History</title>\n    <style>\n        * \x7b margin: 0; padding: 0; box-sizing: border-box; \x7d\n        body \x7b\n            font-family: -apple-system, BlinkMacSystemFont, \x27Segoe UI\x27, Roboto, sans-serif;\n            background: linear-gradient(135deg, \x231e3c72 0%, \x232a5298 100%);\n            color: \x23333;\n            padding: 2rem;\n            min-height: 100vh;\n        \x7d\n        \n        nav \x7b\n            background: rgba(255, 255, 255, 0.95);\n            padding: 1rem 2rem;\n            box-shadow: 0 2px 10px rgba(0,0,0,0.1);\n            margin-bottom: 2rem;\n            border-radius: 12px;\n        \x7d\n        \n        nav ul \x7b\n            list-style: none;\n            display: flex;\n            gap: 2rem;\n            align-items: center;\n        \x7d\n        \n        nav a \x7b\n            text-decoration: none;\n            color: \x232a5298;\n            font-weight: 600;\n            transition: color 0.3s;\n        \x7d\n        \n        nav a:hover \x7b\n            color: \x231e3c72;\n        \x7d\n        \n        nav .logo \x7b\n            font-size: 1.5rem;\n            font-weight: 800;\n            color: \x231e3c72;\n        \x7d\n        \n        .consolidated-page \x7b\n            max-width: 1400px;\n            margin: 0 auto;\n            background: white;\n            border-radius: 20px;\n            overflow: hidden;\n            box-shadow: 0 20px 60px rgba(0,0,0,0.3);\n        \x7d\n        \n        .page-header \x7b\n            background: linear-gradient(135deg, \x231e3c72 0%, \x232a5298 100%);\n            color: white;\n            padding: 3rem;\n            text-align: center;\n        \x7d\n        \n        .page-header h1 \x7b\n            font-size: 2.5rem;\n            margin-bottom: 1rem;\n        \x7d\n        \n        .page-header p \x7b\n            font-size: 1.2rem;\n            opacity: 0.9;\n            max-width: 800px;\n            margin: 0 auto;\n        \x7d\n        \n        .tab-navigation \x7b\n            display: flex;\n            background: \x23f8f9fa;\n            border-bottom: 1px solid \x23e9ecef;\n            overflow-x: auto;\n        \x7d\n        \n        .tab-button \x7b\n            padding: 1rem 2rem;\n            background: transparent;\n            border: none;\n            cursor: pointer;\n            font-weight: 600;\n            color: \x23666;\n            border-bottom: 3px solid transparent;\n            transition: all 0.3s;\n            white-space: nowrap;\n        \x7d\n        \n        .tab-button:hover \x7b\n            background: \x23e9ecef;\n            color: \x232a5298;\n        \x7d\n        \n        .tab-button.active \x7b\n            color: \x232a5298;\n            border-bottom: 3px solid \x232a5298;\n        \x7d\n        \n        .tab-contents \x7b\n            padding: 2rem;\n        \x7d\n        \n        .tab-pane \x7b\n            display: none;\n        \x7d\n        \n        .tab-pane.active \x7b\n            display: block;\n        \x7d\n        \n        .hero-section \x7b\n            margin-bottom: 2rem;\n        \x7d\n        \n        .gallery-section \x7b\n            margin: 2rem 0;\n        \x7d\n        \n        .gallery-section img \x7b\n            width: 100%;\n            height: 300px;\n            object-fit: cover;\n            border-radius: 12px;\n            margin-bottom: 1rem;\n        \x7d\n        \n        .facts-section \x7b\n            margin-top: 2rem;\n        \x7d\n        \n        .fact \x7b\n            background: \x23f8f9fa;\n            padding: 2rem;\n            margin: 2rem 0;\n            border-radius: 12px;\n            border-left: 4px solid \x232a5298;\n        \x7d\n        \n        .fact h3 \x7b\n            color: \x231e3c72;\n            margin-bottom: 1rem;\n        \x7d\n        \n        .fact-meta \x7b\n            color: \x23666;\n            font-size: 0.9rem;\n            margin-top: 1rem;\n        \x7d\n        \n        .timestamp \x7b\n            text-align: center;\n            padding: 2rem;\n            color: \x23999;\n            font-size: 0.9rem;\n            border-top: 1px solid \x23eee;\n            margin-top: 2rem;\n        \x7d\n        \n        @media (max-width: 768px) \x7b\n            .tab-navigation \x7b\n                flex-direction: column;\n            \x7d\n            \n            .tab-button \x7b\n                text-align: left;\n                border-bottom: 1px solid \x23e9ecef;\n                border-right: 3px solid transparent;\n            \x7d\n            \n            .tab-button.active \x7b\n                border-bottom: 1px solid \x23e9ecef;\n                border-right: 3px solid \x232a5298;\n            \x7d\n        \x7d\n    </style>\n</head>\n<body>\n    <!-- Navigation -->\n    <nav>\n        <ul>\n            <li><span class=\"logo\">🏛️ SETX History</span></li>\n            <li><a href=\"/\">History Chat</a></li>\n            <li><a href=\"/contribute.html\">🤝 Contribute</a></li>\n        </ul>\n    </nav>\n    \n    "

def cpChunk3 : String := "\n    \n    <div class=\"timestamp\">\n        Consolidated Page Generated: "

def cpChunk4 : String := "<br>\n        Contains "

def cpChunk5 : String := " related research presentations\n    </div>\n    \n    <script>\n        // Tab switching functionality\n        document.querySelectorAll(\x27.tab-button\x27).forEach(button => \x7b\n            button.addEventListener(\x27click\x27, () => \x7b\n                // Remove active class from all buttons and panes\n                document.querySelectorAll(\x27.tab-button\x27).forEach(btn => btn.classList.remove(\x27active\x27));\n                document.querySelectorAll(\x27.tab-pane\x27).forEach(pane => pane.classList.remove(\x27active\x27));\n                \n                // Add active class to clicked button\n                button.classList.add(\x27active\x27);\n                \n                // Show corresponding tab pane\n                const tabId = button.getAttribute(\x27data-tab\x27);\n                document.getElementById(tabId).classList.add(\x27active\x27);\n            \x7d);\n        \x7d);\n    </script>\n</body>\n</html>\n        "


/-- One tab of `createTabbedInterface`: sections extracted from the stored
presentation HTML (`pres.content || ''`), empty sections omitted. -/
def tabOf (idx : Nat) (pres : PresentationRow × TopicRow) : TabData :=
  let content := extractContentSections (jsOr pres.1.content "")
  { id := "tab-" ++ toString idx,
    label := tabLabel content.title,
    content := caTabContent1 ++
      (if content.hero == "" then ""
       else "<div class=\"hero-section\">" ++ content.hero ++ "</div>") ++
      caTabContent2 ++
      (if content.gallery == "" then ""
       else "<div class=\"gallery-section\">" ++ content.gallery ++ "</div>") ++
      caTabContent3 ++ jsOr content.content "" ++ caTabContent4 }

def tabButtonHtml (idxTab : Nat × TabData) : String :=
  caButton1 ++ (if idxTab.1 == 0 then "active" else "") ++ caButton2 ++ idxTab.2.id ++
  caButton3 ++ idxTab.2.label ++ caButton4

def tabPaneHtml (idxTab : Nat × TabData) : String :=
  caPane1 ++ idxTab.2.id ++ caPane2 ++ (if idxTab.1 == 0 then "active" else "") ++
  caPane3 ++ idxTab.2.content ++ caPane4

structure TabbedInterface where
  tabs : List TabData
  html : String
deriving DecidableEq, Repr

/-- The tabbed interface built for a non-empty presentation list (the value
inside the `some` returned by `createTabbedInterface`). -/
def tabbedOf (pd : PresentationsData) : TabbedInterface :=
  let tabs := pd.presentations.enum.map (fun p => tabOf p.1 p.2)
  let tabNavigation := caNavOpen ++ String.join (tabs.enum.map tabButtonHtml) ++ caNavClose
  let tabContents := caPanesOpen ++ String.join (tabs.enum.map tabPaneHtml) ++ caPanesClose
  { tabs := tabs,
    html := caAsm1 ++ optShow pd.icon ++ caAsm2 ++ optShow pd.displayName ++ caAsm3 ++
      optShow pd.description ++ caAsm4 ++ tabNavigation ++ caAsm5 ++ tabContents ++
      caAsm6 }

/-- `PageConsolidationAgent.createTabbedInterface`: `null` when there are no
presentations, else one tab per presentation with client-side navigation. -/
def createTabbedInterface (pd : PresentationsData) : Option TabbedInterface :=
  if pd.presentations.length == 0 then none
  else some (tabbedOf pd)

/-- `PageConsolidationAgent.generateConsolidatedPage`: `null` when the tabbed
interface is `null`, else the full consolidated document. -/
def generateConsolidatedPage (pd : PresentationsData) (nowStr : String) : Option String :=
  match createTabbedInterface pd with
  | none => none
  | some ti =>
    some (cpChunk1 ++ optShow pd.displayName ++ cpChunk2 ++ ti.html ++ cpChunk3 ++ nowStr ++
      cpChunk4 ++ toString pd.presentations.length ++ cpChunk5)

/-- The value returned by `saveConsolidatedPage`. -/
structure SavedFile where
  filename : String
  filepath : String
  url : String
deriving DecidableEq, Repr

/-- The fallible steps of a consolidation run: whether the presentations query
rejects, whether the file write throws, whether the `consolidated_pages`
insert rejects, plus the clock. -/
structure ConsEnv where
  queryFails : Bool
  writeFails : Bool
  insertFails : Bool
  nowTick : Nat
  nowStr : String

/-- `PageConsolidationAgent.saveConsolidatedPage`: write the file and return
its descriptor; its own try/catch turns a write error into `null`. -/
def saveConsolidatedPage (env : ConsEnv) (fsys : FileSystem) (mainTopic htmlContent : String) :
    Option (SavedFile × FileSystem) :=
  let filename := slugWs (lowerStr mainTopic) ++ "-consolidated-" ++
    toString env.nowTick ++ ".html"
  let filepath := presentationsDirPath ++ "/" ++ filename
  if env.writeFails then none
  else some ({ filename := filename, filepath := filepath,
               url := "/presentations/" ++ filename }, fsys ++ [(filepath, htmlContent)])

/-- `PageConsolidationAgent.storeConsolidatedPage`: insert the
`consolidated_pages` row. -/
def storeConsolidatedPage (db : Database) (mainTopic : String) (displayName : Option String)
    (htmlPath : String) : Database :=
  { db with consolidatedPages := db.consolidatedPages ++
      [{ mainTopic := mainTopic, displayName := displayName, htmlPath := htmlPath }] }

/-- The body of `consolidateTopicCategory` inside its outer `try`: the only
statement that can reject before the outer catch is the presentations query
(the save has its own catch, and the insert is wrapped in an inner try whose
failure is only logged). -/
def consolidateBody (env : ConsEnv) (db : Database) (fsys : FileSystem) (mainTopic : String) :
    Except String (Option SavedFile × Database × FileSystem) :=
  if env.queryFails then .error "database query failed"
  else
    let pd := findRelatedPresentations db mainTopic
    if pd.presentations.length == 0 then .ok (none, db, fsys)
    else
      match generateConsolidatedPage pd env.nowStr with
      | none => .ok (none, db, fsys)
      | some htmlContent =>
        match saveConsolidatedPage env fsys mainTopic htmlContent with
        | none => .ok (none, db, fsys)
        | some (savedFile, fsys2) =>
          let db2 :=
            if env.insertFails then db
            else storeConsolidatedPage db mainTopic pd.displayName savedFile.filepath
          .ok (some savedFile, db2, fsys2)

/-- `PageConsolidationAgent.consolidateTopicCategory(mainTopic)`: the body
wrapped in the outer catch-all, which turns any escaped error into a `null`
result with no further effects. -/
def consolidateTopicCategory (env : ConsEnv) (db : Database) (fsys : FileSystem)
    (mainTopic : String) : Except String (Option SavedFile × Database × FileSystem) :=
  match consolidateBody env db fsys mainTopic with
  | .error _ => .ok (none, db, fsys)
  | .ok r => .ok r

/-! ## Statement helpers and concrete fixtures

`downloadOk` abbreviates, for the theorems, when the download of one accepted
media item succeeds; the fixtures below are concrete environments and
database states used by the witness theorems. -/

/-- Whether the download of an accepted item succeeds: a truthy URL, a 200
response, a non-empty body (the generated filename is never empty, so its
falsiness check cannot fire). -/
def downloadOk (env : LocEnv) (m : MediaItem) : Bool :=
  if m.url == "" then false
  else
    match env.download m.url with
    | .ok data => !data.isEmpty
    | .httpError => false
    | .timedOut => false

/-- The `topic_media` row written for one collected item. -/
def mediaRowOf (topicId : Nat) (i : CollectedMedia) : MediaRow :=
  { topicId := topicId, mediaPath := i.filepath, title := i.title, source := i.source }

/-- An environment where every search fails and every download fails. -/
def noNetEnv : LocEnv :=
  { imageEndpoint := fun _ => none, audioEndpoint := fun _ => none,
    videoEndpoint := fun _ => none, download := fun _ => .httpError, now := fun i => i }

/-- One image result whose download succeeds. -/
def oneImageEnv : LocEnv :=
  { imageEndpoint := fun _ => some
      [{ title := some "Old Derrick", image := some { full := some "https://img/1.jpg" },
         reproductionNumber := none }],
    audioEndpoint := fun _ => none, videoEndpoint := fun _ => none,
    download := fun _ => .ok [1], now := fun i => i }

/-- Two image results; every download fails with a non-200 status. -/
def failDownloadEnv : LocEnv :=
  { imageEndpoint := fun _ => some
      [{ title := some "Old Derrick", image := some { full := some "https://img/1.jpg" },
         reproductionNumber := none },
       { title := some "Gusher", image := some { full := some "https://img/2.jpg" },
         reproductionNumber := none }],
    audioEndpoint := fun _ => none, videoEndpoint := fun _ => none,
    download := fun _ => .httpError, now := fun i => i }

def dbEmpty : Database :=
  { topicsResearched := [], topicMedia := [], presentations := [], historicalTopics := [],
    historicalCities := [], historicalFacts := [], consolidatedPages := [] }

/-- One researched topic with no media, no facts, no presentations. -/
def dbTopic1 : Database :=
  { dbEmpty with topicsResearched :=
      [{ id := 1, topic := "Spindletop", keywords := "[]", userId := "default",
         presentationGenerated := false }] }

/-- A fact linked by foreign key to the `historical_topics` row `Spindletop`. -/
def exactFact : HistoricalFactRow :=
  { id := 1, title := "Lucas Gusher", content := "The gusher of 1901.", eventYear := some 1901,
    cityId := none, topicId := some 7, sourceName := some "Archive", importance := 9,
    imageUrl := none }

/-- A fact with no topic link whose title mentions the researched string. -/
def substringFact : HistoricalFactRow :=
  { id := 2, title := "spindletop changed Texas", content := "Oil.", eventYear := none,
    cityId := none, topicId := none, sourceName := none, importance := 5, imageUrl := none }

/-- A database where the exact lookup on `Spindletop` succeeds. -/
def dbFactsExact : Database :=
  { dbEmpty with
    historicalTopics := [({ id := 7, name := "Spindletop" } : HistoricalTopicRow)],
    historicalFacts := [exactFact, substringFact] }

/-- A database with no lookup row, so the substring fallback applies. -/
def dbFactsFallback : Database :=
  { dbEmpty with historicalFacts := [exactFact, substringFact] }

/-- A stored presentation whose researched topic matches the `Oil & Energy`
hierarchy (via the `Spindletop` subtopic). -/
def dbPres : Database :=
  { dbTopic1 with presentations :=
      [{ topicId := 1, title := "Spindletop", content := "", htmlPath := "x",
         createdAt := 3 }] }

/-- A consolidation run where every step succeeds. -/
def consEnvOk : ConsEnv :=
  { queryFails := false, writeFails := false, insertFails := false, nowTick := 99,
    nowStr := "CLOCK" }

/-- A consolidation run where only the `consolidated_pages` insert fails. -/
def consEnvInsertFail : ConsEnv := { consEnvOk with insertFails := true }

/-! ## General lemmas -/

theorem containsSub_of_isPrefixOf {pat l : List Char} (h : pat.isPrefixOf l = true) :
    containsSub pat l = true := by
  cases l with
  | nil =>
    cases pat with
    | nil => rfl
    | cons c cs => simp at h
  | cons c cs => simp [containsSub, h]

theorem containsSub_append_of_left {pat a : List Char} (b : List Char)
    (h : containsSub pat a = true) : containsSub pat (a ++ b) = true := by
  induction a with
  | nil =>
    cases pat with
    | nil =>
      cases b with
      | nil => rfl
      | cons c cs => simp [containsSub]
    | cons c cs => simp [containsSub] at h
  | cons c cs ih =>
    simp only [containsSub, Bool.or_eq_true] at h ⊢
    rcases h with h | h
    · left
      rw [List.isPrefixOf_iff_prefix] at h ⊢
      exact h.trans (List.prefix_append _ _)
    · right
      exact ih h

theorem containsSub_append_of_right {pat b : List Char} (a : List Char)
    (h : containsSub pat b = true) : containsSub pat (a ++ b) = true := by
  induction a with
  | nil => simpa using h
  | cons c cs ih => simp only [List.cons_append, containsSub, Bool.or_eq_true]; right; exact ih

theorem strContains_append_of_left {s pat : String} (t : String)
    (h : strContains s pat = true) : strContains (s ++ t) pat = true := by
  unfold strContains at h ⊢
  rw [String.data_append]
  exact containsSub_append_of_left _ h

theorem strContains_append_of_right {t pat : String} (s : String)
    (h : strContains t pat = true) : strContains (s ++ t) pat = true := by
  unfold strContains at h ⊢
  rw [String.data_append]
  exact containsSub_append_of_right _ h

/-! ## Claim C5: keyword extraction -/

theorem extractKeywords_foldl (words : List (List Char)) :
    ∀ acc : List String,
      words.foldl
        (fun acc w => if keywordCond w then acc ++ [(⟨stripOnePunct w⟩ : String)] else acc) acc =
      acc ++ (words.filter keywordCond).map (fun w => (⟨stripOnePunct w⟩ : String)) := by
  induction words with
  | nil => intro acc; simp
  | cons w ws ih =>
    intro acc
    by_cases h : keywordCond w = true
    · simp [List.foldl_cons, h, ih, List.filter_cons]
    · simp only [Bool.not_eq_true] at h
      simp [List.foldl_cons, h, ih, List.filter_cons]

/-- C5 (counterexample): on `"what happened in 1901?"` the code returns the
token `"1901?"` with its `?` stripped, while the claimed procedure (return
the surviving tokens unchanged) keeps `"1901?"`; the two disagree. -/
theorem extractKeywords_counterexample :
    extractKeywords "what happened in 1901?" = ["happened", "1901"] ∧
    claimedKeywords "what happened in 1901?" = ["happened", "1901?"] ∧
    extractKeywords "what happened in 1901?" ≠ claimedKeywords "what happened in 1901?" := by
  refine ⟨by decide, by decide, by decide⟩

/-- C5 (amended): `extractKeywords` lowercases the message, splits it on
whitespace, discards stop-words and tokens of length ≤ 3 (measured before
punctuation stripping), and returns the first five surviving tokens in their
original order, each with its first `?`, `!`, `.` or `,` removed; on
`"Tell me about the Spindletop oil discovery in 1901"` it yields exactly
`["spindletop", "discovery", "1901"]` — excluding `"tell"`, `"about"`,
`"the"`, including `"spindletop"` and `"discovery"`, order-preserving, at
most five entries. -/
theorem extractKeywords_spec (m : String) :
    extractKeywords m =
      (((jsSplitWs (lowerStr m).data).filter keywordCond).map
        (fun w => (⟨stripOnePunct w⟩ : String))).take 5 ∧
    extractKeywords "Tell me about the Spindletop oil discovery in 1901" =
      ["spindletop", "discovery", "1901"] := by
  constructor
  · simp only [extractKeywords]
    rw [extractKeywords_foldl]
    simp
  · decide

/-! ## Claims C3 and C4: topic extraction -/

theorem findSubjectAux_none_iff (orig : List Char) :
    findSubjectAux (orig.map Char.toLower) orig = none ↔
    ∀ s ∈ subjectList, containsSub s.data (orig.map Char.toLower) = false := by
  induction orig with
  | nil => decide
  | cons c cs ih =>
    rw [List.map_cons, findSubjectAux]
    rcases hf : subjectList.find? (fun s =>
        s.data.isPrefixOf (Char.toLower c :: List.map Char.toLower cs)) with _ | s
    · simp only [hf]
      constructor
      · intro h s hs
        have hnone := List.find?_eq_none.mp hf s hs
        simp only [Bool.not_eq_true] at hnone
        rw [containsSub, Bool.or_eq_false_iff]
        exact ⟨hnone, (ih.mp h) s hs⟩
      · intro h
        apply ih.mpr
        intro s hs
        have := h s hs
        rw [containsSub, Bool.or_eq_false_iff] at this
        exact this.2
    · simp only [hf]
      constructor
      · intro h; cases h
      · intro h
        have hpred := List.find?_some hf
        have hmem := List.mem_of_find?_eq_some hf
        have := h s hmem
        rw [containsSub, Bool.or_eq_false_iff] at this
        rw [this.1] at hpred
        cases hpred

theorem findSubjectAux_some_spec (orig : List Char) :
    ∀ cap, findSubjectAux (orig.map Char.toLower) orig = some cap →
    ∃ s ∈ subjectList, cap.map Char.toLower = s.data ∧
      containsSub s.data (orig.map Char.toLower) = true := by
  induction orig with
  | nil =>
    intro cap h
    have hnil : findSubjectAux (List.map Char.toLower []) [] = none := by decide
    rw [hnil] at h
    cases h
  | cons c cs ih =>
    intro cap h
    rw [List.map_cons, findSubjectAux] at h
    rcases hf : subjectList.find? (fun s =>
        s.data.isPrefixOf (Char.toLower c :: List.map Char.toLower cs)) with _ | s
    · rw [hf] at h
      simp only [] at h
      obtain ⟨s, hs, hcap, hcont⟩ := ih cap h
      refine ⟨s, hs, hcap, ?_⟩
      rw [List.map_cons, containsSub, Bool.or_eq_true]
      right
      exact hcont
    · rw [hf] at h
      simp only [Option.some.injEq] at h
      have hpred := List.find?_some hf
      have hmem := List.mem_of_find?_eq_some hf
      subst h
      refine ⟨s, hmem, ?_, ?_⟩
      · rw [List.map_take]
        rw [List.isPrefixOf_iff_prefix] at hpred
        have := List.prefix_iff_eq_take.mp hpred
        rw [List.map_cons]
        exact this.symm
      · rw [List.map_cons]
        exact containsSub_of_isPrefixOf hpred

theorem jsTrim_subject {cap : List Char} {s : String} (hs : s ∈ subjectList)
    (hcap : cap.map Char.toLower = s.data) :
    cap ≠ [] ∧ jsTrim ⟨cap⟩ = ⟨cap⟩ ∧ lowerStr ⟨cap⟩ = s := by
  have hlower : ∀ c : Char, c.isWhitespace = true → Char.toLower c = c := by
    intro c hcw
    simp only [Char.isWhitespace, Bool.or_eq_true, decide_eq_true_eq] at hcw
    have h4 : c = ' ' ∨ c = '\t' ∨ c = '\r' ∨ c = '\n' := by tauto
    rcases h4 with rfl | rfl | rfl | rfl <;> decide
  have hne : cap ≠ [] := by
    intro hcn
    subst hcn
    have hd : s.data ≠ [] := by fin_cases hs <;> decide
    simp only [List.map_nil] at hcap
    exact hd hcap.symm
  obtain ⟨c, rest, rfl⟩ := List.exists_cons_of_ne_nil hne
  rw [List.map_cons] at hcap
  have hc : c.isWhitespace = false := by
    by_contra hcw
    rw [Bool.not_eq_false] at hcw
    have hall : ∀ t ∈ subjectList,
        (match t.data.head? with | some d => !d.isWhitespace | none => false) = true := by
      decide
    have hhead : s.data.head? = some c := by
      rw [← hcap, hlower c hcw]
      rfl
    have := hall s hs
    rw [hhead] at this
    simp only [Bool.not_eq_true'] at this
    rw [this] at hcw
    cases hcw
  have hrevne : (c :: rest).reverse ≠ [] := by simp
  obtain ⟨c2, rest2, hrev⟩ := List.exists_cons_of_ne_nil hrevne
  have hmaprev : (c2 :: rest2).map Char.toLower = s.data.reverse := by
    rw [← hrev, List.map_reverse, List.map_cons, hcap]
  have hc2 : c2.isWhitespace = false := by
    by_contra hcw
    rw [Bool.not_eq_false] at hcw
    have hall : ∀ t ∈ subjectList,
        (match t.data.reverse.head? with | some d => !d.isWhitespace | none => false) = true := by
      decide
    have hhead : s.data.reverse.head? = some c2 := by
      rw [← hmaprev, List.map_cons, hlower c2 hcw]
      rfl
    have := hall s hs
    rw [hhead] at this
    simp only [Bool.not_eq_true'] at this
    rw [this] at hcw
    cases hcw
  refine ⟨hne, ?_, ?_⟩
  · show jsTrim ⟨c :: rest⟩ = ⟨c :: rest⟩
    unfold jsTrim
    have h1 : (c :: rest).dropWhile Char.isWhitespace = c :: rest := by
      rw [List.dropWhile_cons, hc]
      simp
    show String.mk _ = _
    rw [h1, hrev, List.dropWhile_cons, hc2]
    try simp only [Bool.false_eq_true, if_false]
    try rw [← hrev, List.reverse_reverse]
  · show lowerStr ⟨c :: rest⟩ = s
    unfold lowerStr
    show String.mk _ = s
    rw [List.map_cons, hcap]

theorem tryPatterns_eq_none_iff (m : String) :
    tryPatterns m = none ↔
      (findSubjectAux (m.data.map Char.toLower) m.data = none ∧
       questionMatchAux ["tell me about "] (m.data.map Char.toLower) m.data = none ∧
       questionMatchAux ["what is ", "what was ", "what were "]
         (m.data.map Char.toLower) m.data = none ∧
       questionMatchAux ["how did "] (m.data.map Char.toLower) m.data = none) := by
  constructor
  · intro h
    simp only [tryPatterns] at h
    rcases hfs : findSubjectAux (List.map Char.toLower m.data) m.data with _ | c0
    · simp only [hfs] at h
      rcases hq1 : questionMatchAux ["tell me about "] (List.map Char.toLower m.data) m.data
        with _ | r1
      · simp only [hq1] at h
        rcases hq2 : questionMatchAux ["what is ", "what was ", "what were "]
          (List.map Char.toLower m.data) m.data with _ | r2
        · simp only [hq2] at h
          exact ⟨rfl, rfl, rfl, h⟩
        · simp [hq2] at h
      · simp [hq1] at h
    · simp [hfs] at h
  · rintro ⟨hfs, h1, h2, h3⟩
    simp only [tryPatterns]
    rw [hfs, h1, h2, h3]

/-- C3 (counterexample): on `"tell me about ?"` the first matching pattern is
the `tell me about` template whose first capture group is empty, yet
`extractTopic` returns the whole match `"tell me about ?"`, not the (empty)
first capture group. -/
theorem extractTopic_counterexample :
    tryPatterns "tell me about ?" = some ("tell me about ?".data, []) ∧
    extractTopic "tell me about ?" = some "tell me about ?" ∧
    extractTopic "tell me about ?" ≠ some "" := by
  refine ⟨by decide, by decide, by decide⟩

/-- C3 (amended): a message containing a fixed named subject
(case-insensitively) always extracts a subject regardless of surrounding
phrasing; `extractTopic` tries the patterns most-specific-first and returns
the trimmed first capture group of the first matching pattern when that
capture is non-empty and the trimmed whole match otherwise (a question
template can match with an empty — falsy — capture); it returns nothing
exactly when no pattern matches. -/
theorem extractTopic_spec (m : String) :
    (∀ s ∈ subjectList, strContains (lowerStr m) s = true →
      ∃ t, extractTopic m = some t ∧ lowerStr t ∈ subjectList ∧
        strContains (lowerStr m) (lowerStr t) = true) ∧
    (extractTopic m = none ↔ tryPatterns m = none) ∧
    (tryPatterns m = none ↔
      ((∀ s ∈ subjectList, strContains (lowerStr m) s = false) ∧
       questionMatchAux ["tell me about "] (lowerStr m).data m.data = none ∧
       questionMatchAux ["what is ", "what was ", "what were "] (lowerStr m).data m.data
         = none ∧
       questionMatchAux ["how did "] (lowerStr m).data m.data = none)) ∧
    (∀ m0 m1, tryPatterns m = some (m0, m1) →
      extractTopic m = some (if m1.isEmpty then jsTrim ⟨m0⟩ else jsTrim ⟨m1⟩)) := by
  refine ⟨?_, ?_, ?_, ?_⟩
  · intro s hs hc
    rcases hfs : findSubjectAux (m.data.map Char.toLower) m.data with _ | cap
    · have := (findSubjectAux_none_iff m.data).mp hfs s hs
      rw [show strContains (lowerStr m) s = containsSub s.data (m.data.map Char.toLower)
        from rfl] at hc
      rw [this] at hc
      cases hc
    · obtain ⟨s', hs', hcap, hcont⟩ := findSubjectAux_some_spec m.data cap hfs
      obtain ⟨hne, htrim, hlow⟩ := jsTrim_subject hs' hcap
      have htry : tryPatterns m = some (cap, cap) := by
        simp only [tryPatterns]
        rw [hfs]
      refine ⟨jsTrim ⟨cap⟩, ?_, ?_, ?_⟩
      · simp [extractTopic, htry]
      · rw [htrim, hlow]
        exact hs'
      · rw [htrim, hlow]
        exact hcont
  · unfold extractTopic
    rcases h : tryPatterns m with _ | p <;> simp [h]
  · rw [tryPatterns_eq_none_iff]
    constructor
    · rintro ⟨hfs, h1, h2, h3⟩
      exact ⟨(findSubjectAux_none_iff m.data).mp hfs, h1, h2, h3⟩
    · rintro ⟨hs, h1, h2, h3⟩
      exact ⟨(findSubjectAux_none_iff m.data).mpr hs, h1, h2, h3⟩
  · intro m0 m1 h
    unfold extractTopic
    rw [h]

/-- C4: a message containing no fixed subject and matching no question
template extracts no topic, and `processUserQuery` then returns nothing with
the database and file system untouched — no collection, no rendering, no
rows. -/
theorem processUserQuery_no_topic (env : LocEnv) (db : Database) (fsys : FileSystem)
    (m : String) (exist : Option Nat) (nowStr : String) (nowTick : Nat)
    (hs : ∀ s ∈ subjectList, strContains (lowerStr m) s = false)
    (h1 : questionMatchAux ["tell me about "] (lowerStr m).data m.data = none)
    (h2 : questionMatchAux ["what is ", "what was ", "what were "] (lowerStr m).data m.data
      = none)
    (h3 : questionMatchAux ["how did "] (lowerStr m).data m.data = none) :
    extractTopic m = none ∧
    processUserQuery env db fsys m exist nowStr nowTick = .ok (none, db, fsys) := by
  have htry : tryPatterns m = none := ((extractTopic_spec m).2.2.1).mpr ⟨hs, h1, h2, h3⟩
  have hext : extractTopic m = none := ((extractTopic_spec m).2.1).mpr htry
  refine ⟨hext, ?_⟩
  unfold processUserQuery
  rw [hext]

/-! ## Claim C1: enhancement mode appends media and never duplicates the topic -/

theorem foldl_linkMedia (tid : Nat) (media : List CollectedMedia) :
    ∀ db : Database,
      media.foldl (fun d item => linkMediaToTopic d tid item.filepath item.title item.source)
        db =
      { db with topicMedia := db.topicMedia ++ media.map (mediaRowOf tid) } := by
  induction media with
  | nil => intro db; simp
  | cons i rest ih =>
    intro db
    rw [List.foldl_cons, ih]
    simp [linkMediaToTopic, mediaRowOf]

/-- C1 (counterexample): `existingTopicId = 0` is non-null but falsy in JS, so
`researchAndCollect` inserts a fresh `topics_researched` row even though an
existing topic id was supplied. -/
theorem researchAndCollect_zero_id_counterexample :
    (researchAndCollect noNetEnv dbEmpty "Spindletop" [] (some 0)).2.topicsResearched ≠
      dbEmpty.topicsResearched ∧
    (researchAndCollect noNetEnv dbEmpty "Spindletop" [] (some 0)).2.topicsResearched.length
      = dbEmpty.topicsResearched.length + 1 := by
  refine ⟨by decide, by decide⟩

/-- C1 (amended): for every pair of `researchAndCollect` calls with the same
non-null, non-zero (truthy) `existingTopicId`, neither call inserts a
`topics_researched` row, while each call appends exactly one `topic_media`
row per successfully collected media item, all linked to that id — repeated
collection only grows `topic_media` and never duplicates the topic record. -/
theorem researchAndCollect_enhance (env1 env2 : LocEnv) (db : Database) (topic : String)
    (kws : List String) (n : Nat) (hn : n ≠ 0) :
    (researchAndCollect env1 db topic kws (some n)).2.topicsResearched =
      db.topicsResearched ∧
    (researchAndCollect env1 db topic kws (some n)).2.topicMedia =
      db.topicMedia ++ (collectMediaForTopic env1 topic kws).map (mediaRowOf n) ∧
    (researchAndCollect env2 (researchAndCollect env1 db topic kws (some n)).2 topic kws
        (some n)).2.topicsResearched = db.topicsResearched ∧
    (researchAndCollect env2 (researchAndCollect env1 db topic kws (some n)).2 topic kws
        (some n)).2.topicMedia =
      (researchAndCollect env1 db topic kws (some n)).2.topicMedia ++
        (collectMediaForTopic env2 topic kws).map (mediaRowOf n) := by
  have hfalsy : jsFalsyId (some n) = false := by
    simp [jsFalsyId, hn]
  have step : ∀ (env : LocEnv) (d : Database),
      (researchAndCollect env d topic kws (some n)).2 =
        { d with topicMedia := d.topicMedia ++
            (collectMediaForTopic env topic kws).map (mediaRowOf n) } := by
    intro env d
    unfold researchAndCollect
    rw [hfalsy]
    simp only [Bool.false_eq_true, if_false, Option.getD_some]
    rw [foldl_linkMedia]
  refine ⟨?_, ?_, ?_, ?_⟩
  · rw [step]
  · rw [step]
  · rw [step env2, step env1]
  · rw [step env2, step env1]

/-! ## Claim C6: search policy of `searchLibraryOfCongress` -/

theorem acceptedImages_length_le (resp : Option (List LocImageItem)) (query : String)
    (maxResults : Nat) : (acceptedImages resp query maxResults).length ≤ maxResults := by
  unfold acceptedImages
  rcases resp with _ | results
  · simp
  · exact le_trans (List.length_filterMap_le _ _) (List.length_take_le _ _)

theorem acceptedAV_length_le (kind : MediaKind) (exts subs : List String)
    (sourceLabel : String) (resp : Option (List LocAVItem)) (query : String) (cap : Nat) :
    (acceptedAV kind exts subs sourceLabel resp query cap).length ≤ cap := by
  unfold acceptedAV
  rcases resp with _ | results
  · simp
  · exact le_trans (List.length_filterMap_le _ _) (List.length_take_le _ _)

theorem mem_acceptedImages_kind {x : MediaItem} {resp : Option (List LocImageItem)}
    {query : String} {maxResults : Nat} (hx : x ∈ acceptedImages resp query maxResults) :
    x.kind = .imageKind := by
  unfold acceptedImages at hx
  rcases resp with _ | results
  · simp at hx
  · rw [List.mem_filterMap] at hx
    obtain ⟨item, _, hf⟩ := hx
    split at hf
    · cases hf
    · split at hf
      · cases hf
      · split at hf
        · cases hf
        · injection hf with hf
          rw [← hf]

theorem avAccept_kind {kind : MediaKind} {exts subs : List String} {lbl query : String}
    {item : LocAVItem} {x : MediaItem} (h : avAccept kind exts subs lbl query item = some x) :
    x.kind = kind := by
  unfold avAccept at h
  split at h
  · cases h
  · split at h
    · injection h with h
      rw [← h]
    · split at h
      · cases h
      · split at h
        · cases h
        · split at h
          · cases h
          · split at h
            · injection h with h
              rw [← h]
            · cases h

theorem mem_acceptedAV_kind {kind : MediaKind} {exts subs : List String} {lbl : String}
    {resp : Option (List LocAVItem)} {query : String} {cap : Nat} {x : MediaItem}
    (hx : x ∈ acceptedAV kind exts subs lbl resp query cap) : x.kind = kind := by
  unfold acceptedAV at hx
  rcases resp with _ | results
  · simp at hx
  · rw [List.mem_filterMap] at hx
    obtain ⟨item, _, hf⟩ := hx
    exact avAccept_kind hf

/-- C6: for every query and requested maximum, the search accepts at most
`maxResults` image items and at most `⌊maxResults/2⌋` audio and video items
each, from one request per media kind whose URL embeds the same query string;
the combined list is image items first, then audio, then video, truncated to
`maxResults`; `collectMediaForTopic` drives it with the query
`[topic, ...keywords, 'Texas history'].join(' ')` and the default cap 10. -/
theorem searchLibraryOfCongress_policy (env : LocEnv) (q : String) (maxResults : Nat)
    (topic : String) (kws : List String) :
    searchLibraryOfCongress env q maxResults =
      ((acceptedImages (env.imageEndpoint (imageSearchUrl q)) q maxResults ++
        acceptedAV .audioKind audioExts audioMimeSubs "Library of Congress - Audio"
          (env.audioEndpoint (audioSearchUrl q)) q (maxResults / 2)) ++
       acceptedAV .videoKind videoExts videoMimeSubs "Library of Congress - Video"
          (env.videoEndpoint (videoSearchUrl q)) q (maxResults / 2)).take maxResults ∧
    (acceptedImages (env.imageEndpoint (imageSearchUrl q)) q maxResults).length
      ≤ maxResults ∧
    (acceptedAV .audioKind audioExts audioMimeSubs "Library of Congress - Audio"
      (env.audioEndpoint (audioSearchUrl q)) q (maxResults / 2)).length ≤ maxResults / 2 ∧
    (acceptedAV .videoKind videoExts videoMimeSubs "Library of Congress - Video"
      (env.videoEndpoint (videoSearchUrl q)) q (maxResults / 2)).length ≤ maxResults / 2 ∧
    (∀ x ∈ acceptedImages (env.imageEndpoint (imageSearchUrl q)) q maxResults,
      x.kind = .imageKind) ∧
    (∀ x ∈ acceptedAV .audioKind audioExts audioMimeSubs "Library of Congress - Audio"
      (env.audioEndpoint (audioSearchUrl q)) q (maxResults / 2), x.kind = .audioKind) ∧
    (∀ x ∈ acceptedAV .videoKind videoExts videoMimeSubs "Library of Congress - Video"
      (env.videoEndpoint (videoSearchUrl q)) q (maxResults / 2), x.kind = .videoKind) ∧
    (searchLibraryOfCongress env q maxResults).length ≤ maxResults ∧
    searchQueryFor topic kws = String.intercalate " " (topic :: (kws ++ ["Texas history"])) ∧
    collectMediaForTopic env topic kws =
      collectGo env topic 0 (searchLibraryOfCongress env (searchQueryFor topic kws) 10) := by
  refine ⟨rfl, acceptedImages_length_le _ _ _, acceptedAV_length_le _ _ _ _ _ _ _,
    acceptedAV_length_le _ _ _ _ _ _ _, ?_, ?_, ?_, ?_, rfl, rfl⟩
  · intro x hx
    exact mem_acceptedImages_kind hx
  · intro x hx
    exact mem_acceptedAV_kind hx
  · intro x hx
    exact mem_acceptedAV_kind hx
  · exact List.length_take_le _ _

/-! ## Claim C7: per-item download failures are skipped -/

theorem append_str_ne_empty (x y : String) (hx : x.data ≠ []) : ((x ++ y) == "") = false := by
  rw [beq_eq_false_iff_ne]
  intro h
  apply hx
  have hdat : (x ++ y).data = [] := by rw [h]
  rw [String.data_append] at hdat
  exact (List.append_eq_nil.mp hdat).1

theorem downloadMedia_isSome (env : LocEnv) (url filename : String) (kind : MediaKind)
    (hf : (filename == "") = false) :
    (downloadMedia env url filename kind).isSome =
      (if url == "" then false
       else
         match env.download url with
         | .ok data => !data.isEmpty
         | .httpError => false
         | .timedOut => false) := by
  unfold downloadMedia
  by_cases hurl : (url == "") = true
  · simp [hurl]
  · rw [Bool.not_eq_true] at hurl
    simp only [hurl, hf, Bool.or_self, Bool.false_eq_true, if_false]
    rcases hdl : env.download url with data | _ | _
    · by_cases hde : data.isEmpty = true <;> simp [hde]
    · simp
    · simp

theorem filter_bool_split {α : Type} (p : α → Bool) (l : List α) :
    (l.filter p).length + (l.filter (fun a => !(p a))).length = l.length := by
  induction l with
  | nil => rfl
  | cons a l ih =>
    by_cases h : p a = true <;> simp [List.filter_cons, h, ← ih] <;> omega

theorem collectGo_spec (env : LocEnv) (topic : String) (items : List MediaItem) :
    ∀ idx : Nat,
      (collectGo env topic idx items).map (fun d => (d.title, d.source, d.kind)) =
        (items.filter (fun m => downloadOk env m)).map
          (fun m => (m.title, m.source, m.kind)) ∧
      (collectGo env topic idx items).length =
        (items.filter (fun m => downloadOk env m)).length := by
  induction items with
  | nil => intro idx; exact ⟨rfl, rfl⟩
  | cons m rest ih =>
    intro idx
    rw [collectGo]
    have hfne : ((slugWs (lowerStr topic) ++ "-" ++ cleanTitleOf m.title ++ "-" ++
        toString (env.now idx)) == "") = false := by
      apply append_str_ne_empty
      simp [String.data_append]
    have hds := downloadMedia_isSome env m.url
      (slugWs (lowerStr topic) ++ "-" ++ cleanTitleOf m.title ++ "-" ++
        toString (env.now idx)) m.kind hfne
    have hds' : (downloadMedia env m.url
        (slugWs (lowerStr topic) ++ "-" ++ cleanTitleOf m.title ++ "-" ++
          toString (env.now idx)) m.kind).isSome = downloadOk env m := hds
    by_cases hok : downloadOk env m = true
    · rw [hok] at hds'
      obtain ⟨fp, hfp⟩ := Option.isSome_iff_exists.mp hds'
      rw [hfp]
      obtain ⟨ih1, ih2⟩ := ih (idx + 1)
      constructor
      · simp only [List.map_cons, List.filter_cons, hok, if_true, ih1]
      · simp only [List.length_cons, List.filter_cons, hok, if_true, ih2]
    · rw [Bool.not_eq_true] at hok
      rw [hok] at hds'
      have hnone : downloadMedia env m.url
          (slugWs (lowerStr topic) ++ "-" ++ cleanTitleOf m.title ++ "-" ++
            toString (env.now idx)) m.kind = none :=
        Option.not_isSome_iff_eq_none.mp (by rw [hds']; simp)
      rw [hnone]
      simp only [List.filter_cons, hok, Bool.false_eq_true, if_false]
      exact ih (idx + 1)

/-- C7: within one `collectMediaForTopic` run the returned items are exactly
the searched items whose download succeeded (same titles, sources and kinds,
in order), so each single failure (non-200 status, timeout or empty body)
shrinks the result by exactly one without aborting the remaining downloads,
and failure of every download yields the empty list rather than an error. -/
theorem collectMediaForTopic_failures (env : LocEnv) (topic : String) (kws : List String) :
    ((collectMediaForTopic env topic kws).map (fun d => (d.title, d.source, d.kind)) =
      ((searchLibraryOfCongress env (searchQueryFor topic kws) 10).filter
        (fun m => downloadOk env m)).map (fun m => (m.title, m.source, m.kind))) ∧
    ((collectMediaForTopic env topic kws).length +
      ((searchLibraryOfCongress env (searchQueryFor topic kws) 10).filter
        (fun m => !(downloadOk env m))).length =
      (searchLibraryOfCongress env (searchQueryFor topic kws) 10).length) ∧
    ((∀ m ∈ searchLibraryOfCongress env (searchQueryFor topic kws) 10,
        downloadOk env m = false) →
      collectMediaForTopic env topic kws = []) := by
  obtain ⟨h1, h2⟩ :=
    collectGo_spec env topic (searchLibraryOfCongress env (searchQueryFor topic kws) 10) 0
  refine ⟨h1, ?_, ?_⟩
  · show (collectGo env topic 0 _).length + _ = _
    rw [h2]
    exact filter_bool_split _ _
  · intro hall
    have hfil : (searchLibraryOfCongress env (searchQueryFor topic kws) 10).filter
        (fun m => downloadOk env m) = [] := by
      rw [List.filter_eq_nil_iff]
      intro m hm
      rw [hall m hm]
      simp
    have hlen : (collectMediaForTopic env topic kws).length = 0 := by
      show (collectGo env topic 0 _).length = 0
      rw [h2, hfil]
      rfl
    exact List.length_eq_zero.mp hlen

/-! ## Claim C2: rendering a missing topic fails hard, an empty topic renders -/

/-- C2: `generatePresentation` throws when no `topics_researched` row has the
requested id; when the row exists but has no linked media and no matching
facts the call still succeeds: it writes and stores the full document built
from the template with an omitted gallery block and an empty facts list, and
that document is a complete HTML page (`<!DOCTYPE html>` … `</html>` with the
`Historical Facts` heading present). -/
theorem generatePresentation_spec (db : Database) (fsys : FileSystem) (tid : Nat)
    (nowStr : String) (nowTick : Nat) :
    (db.topicsResearched.find? (fun t => t.id == tid) = none →
      generatePresentation db fsys tid nowStr nowTick =
        .error ("Topic with ID " ++ toString tid ++ " not found")) ∧
    (∀ t, db.topicsResearched.find? (fun t0 => t0.id == tid) = some t →
      db.topicMedia.filter (fun mr => mr.topicId == tid) = [] →
      getRelatedFacts db t.topic = [] →
      generatePresentation db fsys tid nowStr nowTick =
        .ok ({ filepath := "/presentations/" ++
                 (slugWs (lowerStr t.topic) ++ "-" ++ toString tid ++ ".html"),
               filename := slugWs (lowerStr t.topic) ++ "-" ++ toString tid ++ ".html",
               fullPath := presentationsDirPath ++ "/" ++
                 (slugWs (lowerStr t.topic) ++ "-" ++ toString tid ++ ".html") },
             storePresentation db tid t.topic (presentationHtml t.topic [] [] nowStr)
               (presentationsDirPath ++ "/" ++
                 (slugWs (lowerStr t.topic) ++ "-" ++ toString tid ++ ".html")) nowTick,
             fsys ++ [(presentationsDirPath ++ "/" ++
                 (slugWs (lowerStr t.topic) ++ "-" ++ toString tid ++ ".html"),
               presentationHtml t.topic [] [] nowStr)]) ∧
      galleryBlock t.topic [] = "" ∧
      factsBlock [] = "" ∧
      strContains (presentationHtml t.topic [] [] nowStr) "<!DOCTYPE html>" = true ∧
      strContains (presentationHtml t.topic [] [] nowStr) "</html>" = true ∧
      strContains (presentationHtml t.topic [] [] nowStr) "<h2>Historical Facts</h2>"
        = true) := by
  constructor
  · intro h
    unfold generatePresentation getTopicData
    rw [h]
  · intro t hfind hmedia hfacts
    have hfi : factImages [] = [] := rfl
    refine ⟨?_, rfl, rfl, ?_, ?_, ?_⟩
    · simp only [generatePresentation, getTopicData, hfind, hmedia, hfacts, hfi,
        List.map_nil, List.nil_append, List.append_nil]
    · unfold presentationHtml
      iterate 10 apply strContains_append_of_left
      decide
    · apply strContains_append_of_right
      decide
    · unfold presentationHtml
      iterate 4 apply strContains_append_of_left
      apply strContains_append_of_right
      decide

/-! ## Claim C8: the related-facts query -/

/-- C8 (counterexample): the exact lookup match is of the *cleaned* topic,
not of the researched topic string.  For the stored topic
`"Spindletop in Southeast Texas history"` no `historical_topics` name equals
the researched topic string case-insensitively, and the claimed fallback
substring match (with the researched string as pattern) finds no fact either
— yet the code strips the suffix, matches the lookup row `Spindletop`
exactly, and returns its foreign-key-linked fact. -/
theorem getRelatedFacts_counterexample :
    (∀ ht ∈ dbFactsExact.historicalTopics,
      ¬(lowerStr ht.name == lowerStr "Spindletop in Southeast Texas history") = true) ∧
    ((factViews dbFactsExact).filter (fun v =>
        (match v.topicName with
         | some n => likeContains n "Spindletop in Southeast Texas history"
         | none => false) ||
        likeContains v.fact.title "Spindletop in Southeast Texas history" ||
        likeContains v.fact.content "Spindletop in Southeast Texas history") = []) ∧
    getRelatedFacts dbFactsExact "Spindletop in Southeast Texas history" =
      [{ fact := exactFact, cityName := none, topicName := some "Spindletop" }] := by
  refine ⟨by decide, by decide, by decide⟩

/-- C8 (amended): `getRelatedFacts` first tries an exact case-insensitive
name match of the *cleaned* topic (the researched topic string with the
`in (Southeast) Texas history` suffixes stripped and trimmed) against
`historical_topics` and filters by that row's foreign key; with no exact
match it falls back to a case-insensitive substring match of the cleaned
topic against the joined topic name, the fact title and the fact content;
either way the result is sorted by importance then event year (both
descending) and capped at 10 rows. -/
theorem getRelatedFacts_spec (db : Database) (topic : String) :
    (getRelatedFacts db topic).length ≤ 10 ∧
    List.Pairwise factGe (getRelatedFacts db topic) ∧
    (∀ ht, db.historicalTopics.find?
        (fun t => lowerStr t.name == lowerStr (cleanTopicOf topic)) = some ht →
      getRelatedFacts db topic =
        (((factViews db).filter (fun v => v.fact.topicId == some ht.id)).insertionSort
          factGe).take 10) ∧
    (db.historicalTopics.find?
        (fun t => lowerStr t.name == lowerStr (cleanTopicOf topic)) = none →
      getRelatedFacts db topic =
        (((factViews db).filter (fun v =>
            (match v.topicName with
             | some n => likeContains n (cleanTopicOf topic)
             | none => false) ||
            likeContains v.fact.title (cleanTopicOf topic) ||
            likeContains v.fact.content (cleanTopicOf topic))).insertionSort factGe).take
          10) := by
  rcases hfind : db.historicalTopics.find?
      (fun t => lowerStr t.name == lowerStr (cleanTopicOf topic)) with _ | ht
  · have hdef : getRelatedFacts db topic =
        (((factViews db).filter (fun v =>
            (match v.topicName with
             | some n => likeContains n (cleanTopicOf topic)
             | none => false) ||
            likeContains v.fact.title (cleanTopicOf topic) ||
            likeContains v.fact.content (cleanTopicOf topic))).insertionSort factGe).take
          10 := by
      simp only [getRelatedFacts, hfind]
    refine ⟨?_, ?_, ?_, ?_⟩
    · rw [hdef]
      exact List.length_take_le _ _
    · rw [hdef]
      exact List.Pairwise.sublist (List.take_sublist _ _)
        (List.sorted_insertionSort factGe _)
    · intro ht' hht'
      rw [hfind] at hht'
      cases hht'
    · intro _
      exact hdef
  · have hdef : getRelatedFacts db topic =
        (((factViews db).filter (fun v => v.fact.topicId == some ht.id)).insertionSort
          factGe).take 10 := by
      simp only [getRelatedFacts, hfind]
    refine ⟨?_, ?_, ?_, ?_⟩
    · rw [hdef]
      exact List.length_take_le _ _
    · rw [hdef]
      exact List.Pairwise.sublist (List.take_sublist _ _)
        (List.sorted_insertionSort factGe _)
    · intro ht' hht'
      rw [hfind] at hht'
      injection hht' with hht'
      subst hht'
      exact hdef
    · intro h
      rw [hfind] at h
      cases h

/-! ## Claims C9 and C10: consolidation -/

/-- C9: when the substring match finds no presentations for a category —
including a category absent from the fixed hierarchy table — the
consolidation returns nothing and leaves both the file system and the
database exactly as they were. -/
theorem consolidateTopicCategory_no_match (env : ConsEnv) (db : Database)
    (fsys : FileSystem) (mt : String)
    (h : (findRelatedPresentations db mt).presentations = []) :
    consolidateTopicCategory env db fsys mt = .ok (none, db, fsys) := by
  unfold consolidateTopicCategory consolidateBody
  by_cases hq : env.queryFails = true
  · simp [hq]
  · rw [Bool.not_eq_true] at hq
    simp [hq, h]

/-- C10: `consolidateTopicCategory` never rejects — the outer catch turns any
escaped error into a `null` result with unchanged state; in particular when
the file write succeeds but the `consolidated_pages` insert fails, the
database error is swallowed, the written file stays in the file system, and
the call still resolves to the saved-file descriptor. -/
theorem consolidateTopicCategory_total (env : ConsEnv) (db : Database) (fsys : FileSystem)
    (mt : String) :
    (∃ r, consolidateTopicCategory env db fsys mt = .ok r) ∧
    (env.queryFails = false → env.writeFails = false → env.insertFails = true →
      (findRelatedPresentations db mt).presentations ≠ [] →
      ∃ saved html,
        consolidateTopicCategory env db fsys mt =
          .ok (some saved, db, fsys ++ [(saved.filepath, html)]) ∧
        saved.filepath = presentationsDirPath ++ "/" ++ saved.filename ∧
        generateConsolidatedPage (findRelatedPresentations db mt) env.nowStr = some html) := by
  constructor
  · rcases hb : consolidateBody env db fsys mt with e | r
    · exact ⟨(none, db, fsys), by unfold consolidateTopicCategory; rw [hb]⟩
    · exact ⟨r, by unfold consolidateTopicCategory; rw [hb]⟩
  · intro hq hw hi hne
    have hlen : ((findRelatedPresentations db mt).presentations.length == 0) = false := by
      cases hp : (findRelatedPresentations db mt).presentations with
      | nil => exact absurd hp hne
      | cons a l => simp [hp]
    have hti : createTabbedInterface (findRelatedPresentations db mt) =
        some (tabbedOf (findRelatedPresentations db mt)) := by
      unfold createTabbedInterface
      simp only [hlen, Bool.false_eq_true, if_false]
    have hgen : generateConsolidatedPage (findRelatedPresentations db mt) env.nowStr =
        some (cpChunk1 ++ optShow (findRelatedPresentations db mt).displayName ++ cpChunk2 ++
          (tabbedOf (findRelatedPresentations db mt)).html ++ cpChunk3 ++ env.nowStr ++
          cpChunk4 ++ toString (findRelatedPresentations db mt).presentations.length ++
          cpChunk5) := by
      unfold generateConsolidatedPage
      rw [hti]
    refine ⟨{ filename := slugWs (lowerStr mt) ++ "-consolidated-" ++
                toString env.nowTick ++ ".html",
              filepath := presentationsDirPath ++ "/" ++
                (slugWs (lowerStr mt) ++ "-consolidated-" ++ toString env.nowTick ++ ".html"),
              url := "/presentations/" ++
                (slugWs (lowerStr mt) ++ "-consolidated-" ++ toString env.nowTick ++
                  ".html") },
            _, ?_, rfl, hgen⟩
    unfold consolidateTopicCategory consolidateBody
    simp only [hq, Bool.false_eq_true, if_false, hlen, hgen, saveConsolidatedPage, hw, hi,
      if_true]

/-! ## Witnesses -/

theorem extractTopic_spec_witness :
    (∃ t, extractTopic "I dug at Spindletop today" = some t ∧ lowerStr t ∈ subjectList ∧
      strContains (lowerStr "I dug at Spindletop today") (lowerStr t) = true) ∧
    extractTopic "zzz" = none :=
  ⟨(extractTopic_spec "I dug at Spindletop today").1 "spindletop" (by decide) (by decide),
   ((extractTopic_spec "zzz").2.1).mpr
     (((extractTopic_spec "zzz").2.2.1).mpr ⟨by decide, by decide, by decide, by decide⟩)⟩

theorem processUserQuery_no_topic_witness :
    extractTopic "hello there friends" = none ∧
    processUserQuery noNetEnv dbEmpty [] "hello there friends" none "CLOCK" 0 =
      .ok (none, dbEmpty, []) :=
  processUserQuery_no_topic noNetEnv dbEmpty [] "hello there friends" none "CLOCK" 0
    (by decide) (by decide) (by decide) (by decide)

theorem researchAndCollect_enhance_witness :
    ((researchAndCollect oneImageEnv dbTopic1 "Spindletop" [] (some 1)).2.topicsResearched =
      dbTopic1.topicsResearched) ∧
    ((researchAndCollect oneImageEnv dbTopic1 "Spindletop" [] (some 1)).2.topicMedia =
      dbTopic1.topicMedia ++
        (collectMediaForTopic oneImageEnv "Spindletop" []).map (mediaRowOf 1)) ∧
    ((researchAndCollect oneImageEnv
        (researchAndCollect oneImageEnv dbTopic1 "Spindletop" [] (some 1)).2 "Spindletop" []
        (some 1)).2.topicsResearched = dbTopic1.topicsResearched) ∧
    ((researchAndCollect oneImageEnv
        (researchAndCollect oneImageEnv dbTopic1 "Spindletop" [] (some 1)).2 "Spindletop" []
        (some 1)).2.topicMedia =
      (researchAndCollect oneImageEnv dbTopic1 "Spindletop" [] (some 1)).2.topicMedia ++
        (collectMediaForTopic oneImageEnv "Spindletop" []).map (mediaRowOf 1)) :=
  researchAndCollect_enhance oneImageEnv oneImageEnv dbTopic1 "Spindletop" [] 1 (by decide)

theorem searchLibraryOfCongress_policy_witness :
    (searchLibraryOfCongress oneImageEnv "Spindletop" 10).length ≤ 10 ∧
    (∀ x ∈ acceptedImages (oneImageEnv.imageEndpoint (imageSearchUrl "Spindletop"))
        "Spindletop" 10, x.kind = .imageKind) ∧
    acceptedImages (oneImageEnv.imageEndpoint (imageSearchUrl "Spindletop")) "Spindletop" 10
      ≠ [] :=
  ⟨(searchLibraryOfCongress_policy oneImageEnv "Spindletop" 10 "Spindletop"
      []).2.2.2.2.2.2.2.1,
   (searchLibraryOfCongress_policy oneImageEnv "Spindletop" 10 "Spindletop" []).2.2.2.2.1,
   by decide⟩

theorem collectMediaForTopic_failures_witness :
    (∀ m ∈ searchLibraryOfCongress failDownloadEnv (searchQueryFor "Spindletop" []) 10,
      downloadOk failDownloadEnv m = false) ∧
    collectMediaForTopic failDownloadEnv "Spindletop" [] = [] ∧
    (searchLibraryOfCongress failDownloadEnv (searchQueryFor "Spindletop" []) 10).length
      = 2 :=
  ⟨by decide,
   (collectMediaForTopic_failures failDownloadEnv "Spindletop" []).2.2 (by decide),
   by decide⟩

theorem generatePresentation_spec_witness :
    (generatePresentation dbEmpty [] 1 "CLOCK" 0 =
      .error ("Topic with ID " ++ toString 1 ++ " not found")) ∧
    (generatePresentation dbTopic1 [] 1 "CLOCK" 0 =
      .ok ({ filepath := "/presentations/" ++
               (slugWs (lowerStr "Spindletop") ++ "-" ++ toString 1 ++ ".html"),
             filename := slugWs (lowerStr "Spindletop") ++ "-" ++ toString 1 ++ ".html",
             fullPath := presentationsDirPath ++ "/" ++
               (slugWs (lowerStr "Spindletop") ++ "-" ++ toString 1 ++ ".html") },
           storePresentation dbTopic1 1 "Spindletop"
             (presentationHtml "Spindletop" [] [] "CLOCK")
             (presentationsDirPath ++ "/" ++
               (slugWs (lowerStr "Spindletop") ++ "-" ++ toString 1 ++ ".html")) 0,
           [] ++ [(presentationsDirPath ++ "/" ++
               (slugWs (lowerStr "Spindletop") ++ "-" ++ toString 1 ++ ".html"),
             presentationHtml "Spindletop" [] [] "CLOCK")]) ∧
      galleryBlock "Spindletop" [] = "" ∧
      factsBlock [] = "" ∧
      strContains (presentationHtml "Spindletop" [] [] "CLOCK") "<!DOCTYPE html>" = true ∧
      strContains (presentationHtml "Spindletop" [] [] "CLOCK") "</html>" = true ∧
      strContains (presentationHtml "Spindletop" [] [] "CLOCK") "<h2>Historical Facts</h2>"
        = true) :=
  ⟨(generatePresentation_spec dbEmpty [] 1 "CLOCK" 0).1 (by decide),
   (generatePresentation_spec dbTopic1 [] 1 "CLOCK" 0).2
     { id := 1, topic := "Spindletop", keywords := "[]", userId := "default",
       presentationGenerated := false }
     (by decide) (by decide) (by decide)⟩

theorem getRelatedFacts_spec_witness :
    (getRelatedFacts dbFactsExact "Spindletop" =
      (((factViews dbFactsExact).filter (fun v => v.fact.topicId == some 7)).insertionSort
        factGe).take 10) ∧
    (getRelatedFacts dbFactsFallback "Spindletop" =
      (((factViews dbFactsFallback).filter (fun v =>
          (match v.topicName with
           | some n => likeContains n (cleanTopicOf "Spindletop")
           | none => false) ||
          likeContains v.fact.title (cleanTopicOf "Spindletop") ||
          likeContains v.fact.content (cleanTopicOf "Spindletop"))).insertionSort
        factGe).take 10) ∧
    getRelatedFacts dbFactsExact "Spindletop" =
      [{ fact := exactFact, cityName := none, topicName := some "Spindletop" }] ∧
    getRelatedFacts dbFactsFallback "Spindletop" =
      [{ fact := substringFact, cityName := none, topicName := none }] :=
  ⟨(getRelatedFacts_spec dbFactsExact "Spindletop").2.2.1
     { id := 7, name := "Spindletop" } (by decide),
   (getRelatedFacts_spec dbFactsFallback "Spindletop").2.2.2 (by decide),
   by decide, by decide⟩

theorem consolidateTopicCategory_no_match_witness :
    consolidateTopicCategory consEnvOk dbEmpty [] "Oil & Energy" =
      .ok (none, dbEmpty, []) ∧
    consolidateTopicCategory consEnvOk dbEmpty [] "Cajun Culture" =
      .ok (none, dbEmpty, []) :=
  ⟨consolidateTopicCategory_no_match consEnvOk dbEmpty [] "Oil & Energy" (by decide),
   consolidateTopicCategory_no_match consEnvOk dbEmpty [] "Cajun Culture" (by decide)⟩

theorem consolidateTopicCategory_total_witness :
    ∃ saved html,
      consolidateTopicCategory consEnvInsertFail dbPres [] "Oil & Energy" =
        .ok (some saved, dbPres, [] ++ [(saved.filepath, html)]) ∧
      saved.filepath = presentationsDirPath ++ "/" ++ saved.filename ∧
      generateConsolidatedPage (findRelatedPresentations dbPres "Oil & Energy")
        consEnvInsertFail.nowStr = some html :=
  (consolidateTopicCategory_total consEnvInsertFail dbPres [] "Oil & Energy").2
    rfl rfl rfl (by decide)

end SetxHistory
